import Mathlib

/-!
# SafeTrace backend — verification of the safety-evaluation pipeline

Shallow embedding of the SafeTrace Go backend:

* the SMS heartbeat codec (`ParseHeartbeatSMS`, `BuildSMSPayload`,
  `parseCellInfo` from `internal/services/sms_parser`),
* the SMS webhook's signature-slicing (`HandleIncomingSMS`),
* the safety evaluator (`EvaluateUserSafety`, `checkDeterministicRules`,
  `calculateSafetyScore`, `handleStateTransition` from
  `internal/services/evaluator.go`),
* the store/cache operations the evaluator touches
  (`GetActiveLastGasp`, `GetLatestHeartbeat`, `CreateAlert`,
  `SetUserState`/`GetUserState`, `CheckAlertSent`/`MarkAlertSent`,
  `ResolveAlert` from `internal/database`).

Modelling conventions:

* Instants and durations are unix **nanoseconds** as `Int` (Go `time.Time` /
  `time.Duration` have nanosecond resolution). `d.Minutes() < 5` on an
  integer-nanosecond duration is exactly `d < 5 * 60 * nsPerSec`, so the
  float comparisons of the Go code are embedded as exact integer
  comparisons.
* Go `float64` values that the program parses from and prints to decimal
  text (`lat`, `lng`, `spd`) are embedded as exact scaled decimals
  (`Dec`: numerator over `10 ^ scale`). Every comparison the program
  performs on them is against an integer constant, which `Dec` represents
  exactly.
* Strings manipulated by the codec are `List Char` (`Str`), so that
  splitting/trimming admit inductive proofs. Go library primitives used
  by the codec (`strconv.Atoi`, `strconv.ParseFloat`, `uuid.Parse`,
  `time.Parse RFC3339`) are modelled on the plain decimal / canonical
  textual forms this wire format carries; exotic accepted spellings
  (exponents, hex floats, urn-prefixed uuids, fractional seconds) are
  outside the model and outside every claim.
* `uuid.New()` / `time.Now()` are nondeterministic in Go; the embedding
  takes the fresh id and the current instant as explicit parameters.
* The database and Redis are embedded as an explicit per-user state
  (`Env`); all Redis keys of this service are per-user, so a single-user
  state loses no generality for per-user claims.
-/

/-! ## Basic text machinery (Go `strings` package on `List Char`) -/

abbrev Str := List Char

/-- Go `strings.Split(s, sep)` for a single-character separator: empty
fields are preserved and the empty string splits to one empty field. -/
def splitOnChar (sep : Char) : Str → List Str
  | [] => [[]]
  | c :: rest =>
    if c = sep then [] :: splitOnChar sep rest
    else
      match splitOnChar sep rest with
      | [] => [[c]]
      | s :: ss => (c :: s) :: ss

/-- Go `strings.SplitN(s, sep, 2)` for a single-character separator:
`none` when the separator does not occur (Go returns a 1-element slice,
which the parser skips), otherwise the text before and after the first
occurrence. -/
def splitFirst (sep : Char) : Str → Option (Str × Str)
  | [] => none
  | c :: rest =>
    if c = sep then some ([], rest)
    else (splitFirst sep rest).map (fun p => (c :: p.1, p.2))

def isSpaceChar (c : Char) : Bool :=
  c = ' ' || c = '\t' || c = '\n' || c = '\r'

/-- Go `strings.TrimSpace` (ASCII whitespace; the wire format never
carries other Unicode space). -/
def trimSpace (s : Str) : Str :=
  ((s.dropWhile isSpaceChar).reverse.dropWhile isSpaceChar).reverse

/-! ## Numeric and identifier parsers (Go library primitives) -/

def digitVal (c : Char) : Option Nat :=
  if c.isDigit then some (c.toNat - 48) else none

def parseNatGo (acc : Nat) : Str → Option Nat
  | [] => some acc
  | c :: cs =>
    match digitVal c with
    | none => none
    | some d => parseNatGo (10 * acc + d) cs

/-- A nonempty all-digit string read as a natural number. -/
def parseNatDigits : Str → Option Nat
  | [] => none
  | l => parseNatGo 0 l

/-- Model of Go `strconv.Atoi`: optional sign then decimal digits. -/
def goAtoi (s : Str) : Option Int :=
  match s with
  | [] => none
  | c :: rest =>
    if c = '+' then (parseNatDigits rest).map (fun n => (n : Int))
    else if c = '-' then (parseNatDigits rest).map (fun n => -(n : Int))
    else (parseNatDigits (c :: rest)).map (fun n => (n : Int))

/-- Exact scaled decimal: the value `num / 10 ^ scale`. Embeds the Go
`float64` fields, which this program only parses from decimal text,
compares against integer constants, and prints back to fixed-point
decimal text. -/
structure Dec where
  num : Int
  scale : Nat
deriving DecidableEq, Repr

/-- Magnitude part of `strconv.ParseFloat` on plain decimal forms:
`digits`, `digits.`, `.digits`, `digits.digits`. -/
def parseDecMag (s : Str) : Option Dec :=
  match splitFirst '.' s with
  | none => (parseNatDigits s).map (fun n => ⟨(n : Int), 0⟩)
  | some (i, f) =>
    match i, f with
    | [], [] => none
    | [], fd => (parseNatDigits fd).map (fun fn => ⟨(fn : Int), fd.length⟩)
    | id', [] => (parseNatDigits id').map (fun n => ⟨(n : Int), 0⟩)
    | id', fd =>
      match parseNatDigits id', parseNatDigits fd with
      | some n, some fn => some ⟨(n : Int) * 10 ^ fd.length + (fn : Int), fd.length⟩
      | _, _ => none

/-- Model of Go `strconv.ParseFloat(s, 64)` restricted to the plain
decimal forms this wire format carries (no exponents / hex / Inf). -/
def goParseFloat (s : Str) : Option Dec :=
  match s with
  | [] => parseDecMag []
  | c :: rest =>
    if c = '+' then parseDecMag rest
    else if c = '-' then (parseDecMag rest).map (fun d => ⟨-d.num, d.scale⟩)
    else parseDecMag (c :: rest)

def isHexCh (c : Char) : Bool :=
  c.isDigit || ('a' ≤ c && c ≤ 'f') || ('A' ≤ c && c ≤ 'F')

/-- Model of `uuid.Parse` on the canonical 8-4-4-4-12 textual form,
normalising to lowercase as the Go library does. -/
def uuidParse (s : Str) : Option Str :=
  let gs := splitOnChar '-' s
  if gs.map List.length = [8, 4, 4, 4, 12] ∧ gs.all (fun g => g.all isHexCh) then
    some (s.map Char.toLower)
  else none

def nilUuid : Str := "00000000-0000-0000-0000-000000000000".data

def twoDigitVal (a b : Char) : Option Nat :=
  if a.isDigit && b.isDigit then some ((a.toNat - 48) * 10 + (b.toNat - 48))
  else none

def tsOffsetOk : Str → Bool
  | ['Z'] => true
  | [si, h1, h2, ':', m1, m2] =>
    (si = '+' || si = '-') &&
      (match twoDigitVal h1 h2, twoDigitVal m1 m2 with
       | some hh, some mm => hh ≤ 23 && mm ≤ 59
       | _, _ => false)
  | _ => false

/-- Model of Go `time.Parse(time.RFC3339, s)` on canonical forms
(`YYYY-MM-DDTHH:MM:SS` + `Z` or `±HH:MM`, no fractional seconds): the
canonical text is kept as the parsed value, since `Format(RFC3339)` is
the identity on exactly this subset. -/
def tsParse (s : Str) : Option Str :=
  match s with
  | y1 :: y2 :: y3 :: y4 :: '-' :: m1 :: m2 :: '-' :: d1 :: d2 :: 'T' ::
      h1 :: h2 :: ':' :: n1 :: n2 :: ':' :: s1 :: s2 :: rest =>
    if y1.isDigit && y2.isDigit && y3.isDigit && y4.isDigit then
      match twoDigitVal m1 m2, twoDigitVal d1 d2, twoDigitVal h1 h2,
            twoDigitVal n1 n2, twoDigitVal s1 s2 with
      | some mo, some da, some ho, some mi, some se =>
        if 1 ≤ mo && mo ≤ 12 && 1 ≤ da && da ≤ 31 && ho ≤ 23 && mi ≤ 59 &&
            se ≤ 59 && tsOffsetOk rest then
          some s
        else none
      | _, _, _, _, _ => none
    else none
  | _ => none

/-- The textual form of Go's zero `time.Time`; a parsed timestamp equal
to it makes `Timestamp.IsZero()` true. -/
def zeroTs : Str := "0001-01-01T00:00:00Z".data

/-! ## Data model (internal/models) -/

structure CellInfo where
  mcc : Int := 0
  mnc : Int := 0
  cid : Int := 0
  lac : Int := 0
  rssi : Int := 0
  networkType : Str := []
  neighbors : List (Int × Int) := []
deriving DecidableEq, Repr

/-- `parseCellInfo` of the SMS parser: CSV `mcc,mnc,cid,lac,rssi`;
extra fields beyond the first five are ignored by the Go code. -/
def parseCellInfo (s : Str) : Option CellInfo :=
  let parts := splitOnChar ',' s
  if parts.length < 5 then none
  else
    match parts with
    | p0 :: p1 :: p2 :: p3 :: p4 :: _ =>
      match goAtoi p0, goAtoi p1, goAtoi p2, goAtoi p3, goAtoi p4 with
      | some mcc, some mnc, some cid, some lac, some rssi =>
        some ⟨mcc, mnc, cid, lac, rssi, [], []⟩
      | _, _, _, _, _ => none
    | _ => none

/-- The `models.Heartbeat` record as the SMS codec sees it: the
timestamp is carried as its canonical RFC3339 text (`none` = Go's zero
time), because the codec only parses and re-formats it. -/
structure SmsHeartbeat where
  id : String
  userId : Str := nilUuid
  source : String := "sms"
  lat : Dec := ⟨0, 0⟩
  lng : Dec := ⟨0, 0⟩
  accuracyM : Int := 0
  cellInfo : CellInfo := {}
  batteryPct : Option Int := none
  speed : Option Dec := none
  lastGasp : Bool := false
  timestamp : Option Str := none
  signature : Str := []
  createdAt : Int
deriving DecidableEq, Repr

/-! ## SMS codec (`ParseHeartbeatSMS` / `BuildSMSPayload`) -/

/-- One iteration of the key dispatch loop of `ParseHeartbeatSMS`.
Parts without `=` are skipped; `bat` / `spd` parse failures are
silently ignored (the Go code only assigns on `err == nil`); unknown
keys fall through. -/
def processPart (hb : SmsHeartbeat) (part : Str) : Except String SmsHeartbeat :=
  match splitFirst '=' part with
  | none => .ok hb
  | some (k, v) =>
    let key := trimSpace k
    let value := trimSpace v
    if key = "uid".data then
      match uuidParse value with
      | none => .error "invalid user ID"
      | some u => .ok { hb with userId := u }
    else if key = "ts".data then
      match tsParse value with
      | none => .error "invalid timestamp"
      | some t => .ok { hb with timestamp := some t }
    else if key = "lat".data then
      match goParseFloat value with
      | none => .error "invalid latitude"
      | some d => .ok { hb with lat := d }
    else if key = "lng".data then
      match goParseFloat value with
      | none => .error "invalid longitude"
      | some d => .ok { hb with lng := d }
    else if key = "acc".data then
      match goAtoi value with
      | none => .error "invalid accuracy"
      | some a => .ok { hb with accuracyM := a }
    else if key = "cell".data then
      match parseCellInfo value with
      | none => .error "invalid cell info"
      | some ci => .ok { hb with cellInfo := ci }
    else if key = "bat".data then
      match goAtoi value with
      | none => .ok hb
      | some b => .ok { hb with batteryPct := some b }
    else if key = "spd".data then
      match goParseFloat value with
      | none => .ok hb
      | some d => .ok { hb with speed := some d }
    else if key = "lg".data then
      .ok { hb with lastGasp := (value == "1".data || value == "true".data) }
    else if key = "sig".data then
      .ok { hb with signature := value }
    else .ok hb

def processParts (hb : SmsHeartbeat) : List Str → Except String SmsHeartbeat
  | [] => .ok hb
  | p :: rest =>
    match processPart hb p with
    | .error e => .error e
    | .ok hb₁ => processParts hb₁ rest

/-- `ParseHeartbeatSMS`: split on `;`, require at least 6 fields, run
the key dispatch loop, then validate the required fields. `freshId` /
`now` stand for the `uuid.New()` / `time.Now()` calls. -/
def ParseHeartbeatSMS (freshId : String) (now : Int) (smsBody : Str) :
    Except String SmsHeartbeat :=
  let parts := splitOnChar ';' smsBody
  if parts.length < 6 then .error "invalid SMS format: insufficient fields"
  else
    match processParts { id := freshId, source := "sms", createdAt := now } parts with
    | .error e => .error e
    | .ok hb =>
      if hb.userId = nilUuid then .error "missing user ID"
      else if hb.timestamp = none ∨ hb.timestamp = some zeroTs then
        .error "missing timestamp"
      else if hb.signature = [] then .error "missing signature"
      else .ok hb

def digitChar (n : Nat) : Char := Char.ofNat (48 + n)

def natToDigitsAux : Nat → Nat → Str
  | 0, _ => []
  | fuel + 1, n =>
    if n < 10 then [digitChar n]
    else natToDigitsAux fuel (n / 10) ++ [digitChar (n % 10)]

/-- Decimal digits of a natural number, most significant first. -/
def natToDigits (n : Nat) : Str := natToDigitsAux (n + 1) n

/-- Go `fmt.Sprintf("%d", i)`. -/
def fmtInt (i : Int) : Str :=
  (if i < 0 then ['-'] else []) ++ natToDigits i.natAbs

/-- Exactly six decimal digits, zero padded (for `n < 10^6`). -/
def digit6 (n : Nat) : Str :=
  [digitChar (n / 100000 % 10), digitChar (n / 10000 % 10),
   digitChar (n / 1000 % 10), digitChar (n / 100 % 10),
   digitChar (n / 10 % 10), digitChar (n % 10)]

/-- The magnitude of a `Dec` rescaled to `10^k` fixed point (exact when
`scale ≤ k`; coarser stored scales are truncated — the Go `%.*f`
rounds, and the two agree on every exactly-representable value, which
is all the round-trip claims quantify over). -/
def decScaled (d : Dec) (k : Nat) : Nat :=
  if d.scale ≤ k then d.num.natAbs * 10 ^ (k - d.scale)
  else d.num.natAbs / 10 ^ (d.scale - k)

/-- Go `fmt.Sprintf("%.6f", x)` on exactly-representable values. -/
def fmtF6 (d : Dec) : Str :=
  (if d.num < 0 then ['-'] else []) ++
    (natToDigits (decScaled d 6 / 1000000) ++ '.' :: digit6 (decScaled d 6 % 1000000))

/-- Go `fmt.Sprintf("%.1f", x)` on exactly-representable values. -/
def fmtF1 (d : Dec) : Str :=
  (if d.num < 0 then ['-'] else []) ++
    (natToDigits (decScaled d 1 / 10) ++ ['.', digitChar (decScaled d 1 % 10)])

/-- Go `fmt.Sprintf("%d,%d,%d,%d,%d", mcc, mnc, cid, lac, rssi)`. -/
def cellPayload (ci : CellInfo) : Str :=
  fmtInt ci.mcc ++ ',' :: (fmtInt ci.mnc ++ ',' :: (fmtInt ci.cid ++
    ',' :: (fmtInt ci.lac ++ ',' :: fmtInt ci.rssi)))

/-- The part list assembled by `BuildSMSPayload` before joining. -/
def buildParts (hb : SmsHeartbeat) : List Str :=
  ["uid=".data ++ hb.userId,
   "ts=".data ++ hb.timestamp.getD [],
   "lat=".data ++ fmtF6 hb.lat,
   "lng=".data ++ fmtF6 hb.lng,
   "acc=".data ++ fmtInt hb.accuracyM,
   "cell=".data ++ cellPayload hb.cellInfo] ++
  (match hb.batteryPct with
   | some b => ["bat=".data ++ fmtInt b]
   | none => []) ++
  (match hb.speed with
   | some v => ["spd=".data ++ fmtF1 v]
   | none => []) ++
  (if hb.lastGasp then ["lg=1".data] else []) ++
  ["sig=".data ++ hb.signature]

/-- Go `strings.Join(parts, ";")`. -/
def joinSemis : List Str → Str
  | [] => []
  | [p] => p
  | p :: ps => p ++ ';' :: joinSemis ps

/-- `BuildSMSPayload`: the semicolon-joined compressed payload. -/
def BuildSMSPayload (hb : SmsHeartbeat) : Str :=
  joinSemis (buildParts hb)

/-! ## SMS webhook signature slicing (`HandleIncomingSMS`) -/

/-- The bytes `HandleIncomingSMS` actually verifies:
`body[:len(body)-len(heartbeat.Signature)-5]` — the last
`len(sig) + len(";sig=")` bytes are cut off the end of the body. -/
def smsVerifiedBytes (body : Str) (sig : Str) : Str :=
  body.take (body.length - sig.length - 5)

/-- Modelled from the spec: "the exact substring preceding `;sig=`" —
the bytes of the body before the last occurrence of the `;sig=` token
(the whole body when the token does not occur). Used only to compare
the implementation's slice against the spec's description. -/
def specSignedBytes (body : Str) : Str :=
  body.take
    ((((List.range (body.length + 1)).filter
        (fun i => (body.drop i).take 5 == ";sig=".data)).getLast?).getD body.length)

/-! ## Evaluator data model -/

def nsPerSec : Int := 1000000000

structure Config where
  heartbeatWindowSeconds : Int := 600
deriving DecidableEq

/-- `models.Heartbeat` as the evaluator sees it: the timestamp is a
unix-nanosecond instant. -/
structure Heartbeat where
  id : String := ""
  userId : String := ""
  source : String := "http"
  lat : Dec := ⟨0, 0⟩
  lng : Dec := ⟨0, 0⟩
  accuracyM : Int := 0
  cellInfo : CellInfo := {}
  batteryPct : Option Int := none
  speed : Option Dec := none
  lastGasp : Bool := false
  timestamp : Int := 0
  signature : String := ""
  createdAt : Int := 0
deriving DecidableEq, Repr

structure LastGasp where
  id : String := ""
  userId : String := ""
  lat : Dec := ⟨0, 0⟩
  lng : Dec := ⟨0, 0⟩
  accuracyM : Int := 0
  cellInfo : CellInfo := {}
  createdAt : Int := 0
  expiryTs : Int := 0
deriving DecidableEq, Repr

structure EvaluationResult where
  state : String
  score : Int
  reason : String
deriving DecidableEq, Repr

structure Alert where
  id : String
  userId : String := ""
  state : String := ""
  score : Int := 0
  reason : String := ""
  sentTo : List String := []
  createdAt : Int := 0
  resolvedAt : Option Int := none
deriving DecidableEq, Repr

structure UserState where
  userId : String
  state : String
  score : Int
  lastHeartbeat : Int
  updatedAt : Int
deriving DecidableEq, Repr

/-- Per-user persistent state: the Postgres rows for this user plus the
per-user Redis keys (`user:state:<id>`, `alert:sent:<id>`). The
Notifier is observed through `dispatchCount` (number of outbound alert
bursts). `userExists` models whether `GetUserByID` finds the user. -/
structure Env where
  lastGasps : List LastGasp := []
  heartbeats : List Heartbeat := []
  alerts : List Alert := []
  cachedState : Option UserState := none
  alertSentMark : Bool := false
  userExists : Bool := true
  dispatchCount : Nat := 0
deriving DecidableEq, Repr

/-! ## Store / cache operations -/

/-- `GetActiveLastGasp`: newest row with `expiry_ts > NOW()`
(`ORDER BY created_at DESC LIMIT 1`). -/
def GetActiveLastGasp (now : Int) (rows : List LastGasp) : Option LastGasp :=
  (rows.filter (fun lg => decide (now < lg.expiryTs))).foldl
    (fun best lg =>
      match best with
      | none => some lg
      | some b => if b.createdAt < lg.createdAt then some lg else some b)
    none

/-- `GetLatestHeartbeat` (`ORDER BY timestamp DESC LIMIT 1`). -/
def GetLatestHeartbeat (rows : List Heartbeat) : Option Heartbeat :=
  rows.foldl
    (fun best hb =>
      match best with
      | none => some hb
      | some b => if b.timestamp < hb.timestamp then some hb else some b)
    none

/-- `ResolveAlert` of the Postgres layer:
`UPDATE alerts SET resolved_at = NOW() WHERE id = $1` — every matching
row is stamped with the current time, no affected-row count is
checked. -/
def dbResolveAlert (now : Int) (alerts : List Alert) (alertId : String) : List Alert :=
  alerts.map (fun a => if a.id = alertId then { a with resolvedAt := some now } else a)

/-! ## Evaluator (`internal/services/evaluator.go`) -/

/-- `checkDeterministicRules`: rule 1 fires inside the heartbeat window
(CAUTION/60 when the LastGasp flag is set, otherwise fall through to
scoring); rule 3 fires strictly beyond the window (AT_RISK/30 with the
age in whole minutes); exactly at the window neither rule fires.
`int(d.Minutes())` truncates toward zero, i.e. `Int.tdiv`. -/
def checkDeterministicRules (cfg : Config) (now : Int) (hb : Heartbeat) :
    Option EvaluationResult :=
  let timeSinceHeartbeat := now - hb.timestamp
  if timeSinceHeartbeat < cfg.heartbeatWindowSeconds * nsPerSec then
    if hb.lastGasp then some ⟨"CAUTION", 60, "LastGasp received - monitoring"⟩
    else none
  else if timeSinceHeartbeat > cfg.heartbeatWindowSeconds * nsPerSec then
    some ⟨"AT_RISK", 30,
      "No heartbeat for " ++ toString (Int.tdiv timeSinceHeartbeat (60 * nsPerSec)) ++
        " minutes"⟩
  else none

/-- Component 1 of `calculateSafetyScore`: heartbeat recency
(`recencyMinutes < 5 / < 10 / < 15`, in exact nanoseconds). -/
def recencyComponent (t : Int) : Int :=
  if t < 300 * nsPerSec then 30
  else if t < 600 * nsPerSec then 20
  else if t < 900 * nsPerSec then 10
  else 0

/-- Component 2: GPS accuracy. -/
def accuracyComponent (acc : Int) : Int :=
  if acc < 50 then 20
  else if acc < 200 then 15
  else if acc < 500 then 10
  else 5

/-- Component 3: movement pattern. The Go switch gives no points to a
present negative speed. `v < 100` on a `Dec` is the exact
cross-multiplied integer comparison. -/
def movementComponent : Option Dec → Int
  | some v =>
    if 0 ≤ v.num ∧ v.num < 100 * (10 : Int) ^ v.scale then 20
    else if 100 * (10 : Int) ^ v.scale ≤ v.num then 10
    else 0
  | none => 15

/-- Component 4: signal quality (`RSSI > -70` / `> -90`). -/
def signalComponent (rssi : Int) : Int :=
  if -70 < rssi then 10
  else if -90 < rssi then 5
  else 0

/-- Component 5: source reliability. -/
def sourceComponent (src : String) : Int :=
  if src = "http" then 5 else 3

/-- Component 6: battery level (`> 20` / `> 5`; unknown is neutral). -/
def batteryComponent : Option Int → Int
  | some b => if 20 < b then 15 else if 5 < b then 10 else 5
  | none => 10

/-- The final bounds check of `calculateSafetyScore`. -/
def clampScore (s : Int) : Int :=
  let s := if s > 100 then 100 else s
  if s < 0 then 0 else s

/-- `calculateSafetyScore`: the six `score +=` steps, then clamp to
[0,100]. -/
def calculateSafetyScore (now : Int) (hb : Heartbeat) : Int :=
  clampScore
    (recencyComponent (now - hb.timestamp) + accuracyComponent hb.accuracyM +
      movementComponent hb.speed + signalComponent hb.cellInfo.rssi +
      sourceComponent hb.source + batteryComponent hb.batteryPct)

/-- The actions of `handleStateTransition` past the no-change early
return: alert dedup via the `alert:sent` key, then per-state actions.
For AT_RISK/ALERT the alert row is persisted first; the user lookup
failing afterwards leaves the row behind (as in the Go code); the
dispatch goroutine sends one burst and then marks `alert:sent`. -/
def transitionActions (userId freshAlertId : String) (now : Int) (env : Env)
    (newState : String) (score : Int) (reason : String) : Option String × Env :=
  if (newState = "AT_RISK" ∨ newState = "ALERT") ∧ env.alertSentMark then
    (none, env)
  else if newState = "CAUTION" then (none, env)
  else if newState = "AT_RISK" ∨ newState = "ALERT" then
    let alert : Alert :=
      { id := freshAlertId, userId := userId, state := newState, score := score,
        reason := reason, sentTo := [], createdAt := now }
    let env₁ := { env with alerts := env.alerts ++ [alert] }
    if env₁.userExists then
      (none, { env₁ with dispatchCount := env₁.dispatchCount + 1, alertSentMark := true })
    else ((some ("user not found: " ++ userId)), env₁)
  else (none, env)

/-- `handleStateTransition`: read the previous `UserState` from the
cache; when it equals the new state and the new state is not ALERT,
do nothing. -/
def handleStateTransition (userId freshAlertId : String) (now : Int) (env : Env)
    (newState : String) (score : Int) (reason : String) : Option String × Env :=
  match env.cachedState with
  | some prev =>
    if prev.state = newState ∧ newState ≠ "ALERT" then (none, env)
    else transitionActions userId freshAlertId now env newState score reason
  | none => transitionActions userId freshAlertId now env newState score reason

/-- The score→state mapping of `EvaluateUserSafety` (its final switch). -/
def stateForScore (score : Int) : String :=
  if score ≥ 80 then "SAFE"
  else if score ≥ 50 then "CAUTION"
  else "AT_RISK"

/-- The fixed reason string per score band. -/
def reasonForScore (score : Int) : String :=
  if score ≥ 80 then "All indicators normal"
  else if score ≥ 50 then "Some indicators concerning - silent check initiated"
  else "Multiple risk indicators detected"

/-- `EvaluateUserSafety`: LastGasp short-circuit, bootstrap, the
deterministic rules, composite scoring with the score→state mapping,
the `SetUserState` cache write, then transition handling. Returns the
evaluation result (or the propagated error) together with the updated
persistent state. -/
def EvaluateUserSafety (cfg : Config) (userId freshAlertId : String) (now : Int)
    (env : Env) : Except String EvaluationResult × Env :=
  match GetActiveLastGasp now env.lastGasps with
  | some _ =>
    (.ok ⟨"WAIT_LASTGASP", 0, "LastGasp active - monitoring connectivity"⟩, env)
  | none =>
    match GetLatestHeartbeat env.heartbeats with
    | none => (.ok ⟨"SAFE", 100, "No heartbeat data yet"⟩, env)
    | some heartbeat =>
      match checkDeterministicRules cfg now heartbeat with
      | some r => (.ok r, env)
      | none =>
        let score := calculateSafetyScore now heartbeat
        let state := stateForScore score
        let reason := reasonForScore score
        let env₁ :=
          { env with cachedState := some ⟨userId, state, score, heartbeat.timestamp, now⟩ }
        match handleStateTransition userId freshAlertId now env₁ state score reason with
        | (some e, env₂) => (.error ("failed to handle state transition: " ++ e), env₂)
        | (none, env₂) => (.ok ⟨state, score, reason⟩, env₂)

/-- The score the evaluation pipeline assigns to a heartbeat at a given
instant: the deterministic rules when one fires, otherwise the
composite score (the objects cited by the staleness-monotonicity
claim). -/
def scoreAt (cfg : Config) (now : Int) (hb : Heartbeat) : Int :=
  match checkDeterministicRules cfg now hb with
  | some r => r.score
  | none => calculateSafetyScore now hb

/-- The evaluation result an `EvaluateUserSafety` call returns to its
caller (`none` when the call surfaces an error). -/
def resultOf (p : Except String EvaluationResult × Env) : Option EvaluationResult :=
  p.1.toOption

/-! ## Read side and system operations -/

/-- `GetUserStatus` handler: the cached state's `state` field, or
UNKNOWN when the cache has no entry. -/
def GetUserStatus (env : Env) : String :=
  match env.cachedState with
  | none => "UNKNOWN"
  | some s => s.state

/-- `ResolveAlert` handler: 400 on a non-uuid path parameter, otherwise
run the UPDATE and answer 200 success unconditionally. -/
def ResolveAlertHandler (env : Env) (idStr : Str) (now : Int) : Nat × Env :=
  match uuidParse idStr with
  | none => (400, env)
  | some aid => (200, { env with alerts := dbResolveAlert now env.alerts (String.mk aid) })

/-- The operations that touch a user's persistent state. Redis TTL
evictions of the two per-user keys are explicit operations. -/
inductive SysOp where
  | evaluate (freshAlertId : String) (now : Int)
  | addHeartbeat (hb : Heartbeat)
  | addLastGasp (lg : LastGasp)
  | resolveAlert (idStr : Str) (now : Int)
  | cacheExpire
  | alertMarkExpire
deriving DecidableEq

def applyOp (cfg : Config) (userId : String) (env : Env) : SysOp → Env
  | .evaluate fid now => (EvaluateUserSafety cfg userId fid now env).2
  | .addHeartbeat hb => { env with heartbeats := env.heartbeats ++ [hb] }
  | .addLastGasp lg => { env with lastGasps := env.lastGasps ++ [lg] }
  | .resolveAlert idStr now => (ResolveAlertHandler env idStr now).2
  | .cacheExpire => { env with cachedState := none }
  | .alertMarkExpire => { env with alertSentMark := false }

def applyOps (cfg : Config) (userId : String) (env : Env) (ops : List SysOp) : Env :=
  ops.foldl (applyOp cfg userId) env

/-! ## Evaluator lemmas -/

lemma pickNewest_isSome (l : List LastGasp) (acc : Option LastGasp)
    (h : acc.isSome = true ∨ l ≠ []) :
    (l.foldl (fun best lg =>
      match best with
      | none => some lg
      | some b => if b.createdAt < lg.createdAt then some lg else some b)
      acc).isSome = true := by
  induction l generalizing acc with
  | nil =>
    rcases h with h | h
    · simpa using h
    · exact absurd rfl h
  | cons x xs ih =>
    refine ih _ (Or.inl ?_)
    cases acc with
    | none => rfl
    | some b => by_cases hlt : b.createdAt < x.createdAt <;> simp [hlt]

lemma GetActiveLastGasp_isSome {now : Int} {lg : LastGasp} {rows : List LastGasp}
    (hmem : lg ∈ rows) (hexp : now < lg.expiryTs) :
    (GetActiveLastGasp now rows).isSome = true := by
  unfold GetActiveLastGasp
  apply pickNewest_isSome
  right
  intro hnil
  have hm : lg ∈ rows.filter (fun lg => decide (now < lg.expiryTs)) :=
    List.mem_filter.mpr ⟨hmem, by simpa using hexp⟩
  rw [hnil] at hm
  simp at hm

lemma stateForScore_ne_alert (s : Int) : stateForScore s ≠ "ALERT" := by
  unfold stateForScore
  split_ifs <;> decide

lemma stateForScore_cases (s : Int) :
    stateForScore s = "SAFE" ∨ stateForScore s = "CAUTION" ∨ stateForScore s = "AT_RISK" := by
  unfold stateForScore
  split_ifs <;> simp

lemma handleStateTransition_self (userId fid : String) (now : Int) (env : Env)
    (st : String) (sc : Int) (rsn : String) (prev : UserState)
    (hc : env.cachedState = some prev) (hst : prev.state = st) (hne : st ≠ "ALERT") :
    handleStateTransition userId fid now env st sc rsn = (none, env) := by
  unfold handleStateTransition
  rw [hc]
  simp [hst, hne]

lemma evaluate_composite (cfg : Config) (userId fid : String) (now : Int) (env : Env)
    (hb : Heartbeat)
    (hnog : GetActiveLastGasp now env.lastGasps = none)
    (hlatest : GetLatestHeartbeat env.heartbeats = some hb)
    (hdet : checkDeterministicRules cfg now hb = none) :
    EvaluateUserSafety cfg userId fid now env =
      (.ok ⟨stateForScore (calculateSafetyScore now hb),
            calculateSafetyScore now hb,
            reasonForScore (calculateSafetyScore now hb)⟩,
       { env with cachedState := some ⟨userId, stateForScore (calculateSafetyScore now hb),
           calculateSafetyScore now hb, hb.timestamp, now⟩ }) := by
  unfold EvaluateUserSafety
  rw [hnog]
  dsimp only
  rw [hlatest]
  dsimp only
  rw [hdet]
  dsimp only
  rw [handleStateTransition_self userId fid now
    { env with cachedState := some ⟨userId, stateForScore (calculateSafetyScore now hb),
        calculateSafetyScore now hb, hb.timestamp, now⟩ }
    (stateForScore (calculateSafetyScore now hb)) (calculateSafetyScore now hb)
    (reasonForScore (calculateSafetyScore now hb))
    ⟨userId, stateForScore (calculateSafetyScore now hb), calculateSafetyScore now hb,
      hb.timestamp, now⟩ rfl rfl (stateForScore_ne_alert _)]

lemma stateForScore_safe_iff (s : Int) : stateForScore s = "SAFE" ↔ 80 ≤ s := by
  unfold stateForScore
  split_ifs with h1 h2
  · exact ⟨fun _ => by omega, fun _ => rfl⟩
  · exact ⟨fun h => absurd h (by decide), fun h => by omega⟩
  · exact ⟨fun h => absurd h (by decide), fun h => by omega⟩

lemma stateForScore_caution_iff (s : Int) :
    stateForScore s = "CAUTION" ↔ 50 ≤ s ∧ s < 80 := by
  unfold stateForScore
  split_ifs with h1 h2
  · exact ⟨fun h => absurd h (by decide), fun h => by omega⟩
  · exact ⟨fun _ => by omega, fun _ => rfl⟩
  · exact ⟨fun h => absurd h (by decide), fun h => by omega⟩

lemma stateForScore_atrisk_iff (s : Int) : stateForScore s = "AT_RISK" ↔ s < 50 := by
  unfold stateForScore
  split_ifs with h1 h2
  · exact ⟨fun h => absurd h (by decide), fun h => by omega⟩
  · exact ⟨fun h => absurd h (by decide), fun h => by omega⟩
  · exact ⟨fun _ => by omega, fun _ => rfl⟩

lemma checkDeterministicRules_none (cfg : Config) (now : Int) (hb : Heartbeat)
    (hlg : hb.lastGasp = false)
    (hage : now - hb.timestamp ≤ cfg.heartbeatWindowSeconds * nsPerSec) :
    checkDeterministicRules cfg now hb = none := by
  unfold checkDeterministicRules
  rcases lt_or_eq_of_le hage with h | h
  · rw [if_pos h, hlg]
    rfl
  · rw [if_neg (by omega), if_neg (by omega)]

lemma checkDeterministicRules_stale (cfg : Config) (now : Int) (hb : Heartbeat)
    (hage : now - hb.timestamp > cfg.heartbeatWindowSeconds * nsPerSec) :
    checkDeterministicRules cfg now hb =
      some ⟨"AT_RISK", 30,
        "No heartbeat for " ++
          toString (Int.tdiv (now - hb.timestamp) (60 * nsPerSec)) ++ " minutes"⟩ := by
  unfold checkDeterministicRules
  rw [if_neg (by omega), if_pos hage]

/-- C1: with an unexpired LastGasp row present, `EvaluateUserSafety`
returns `{WAIT_LASTGASP, 0, "LastGasp active - monitoring connectivity"}`
whatever heartbeats are persisted, and leaves the whole persistent state
(store rows, state cache, alert-sent mark, notifier) untouched. -/
theorem c1_lastgasp_short_circuit (cfg : Config) (userId freshAlertId : String)
    (now : Int) (env : Env)
    (h : ∃ lg ∈ env.lastGasps, now < lg.expiryTs) :
    EvaluateUserSafety cfg userId freshAlertId now env =
      (.ok ⟨"WAIT_LASTGASP", 0, "LastGasp active - monitoring connectivity"⟩, env) := by
  obtain ⟨lg, hmem, hexp⟩ := h
  obtain ⟨v, hv⟩ := Option.isSome_iff_exists.mp (GetActiveLastGasp_isSome hmem hexp)
  unfold EvaluateUserSafety
  rw [hv]

def lgW : LastGasp := { id := "lg-1", userId := "user-1", expiryTs := 10 }

def hbPerfect : Heartbeat :=
  { source := "http", accuracyM := 20, cellInfo := { rssi := -60 },
    batteryPct := some 80, speed := some ⟨5, 0⟩, timestamp := 0 }

def envC1 : Env := { lastGasps := [lgW], heartbeats := [hbPerfect] }

/-- C1 witness: a user with a LastGasp expiring at t=10 and a perfect
persisted heartbeat, evaluated at t=5. -/
theorem c1_witness :
    EvaluateUserSafety {} "user-1" "alert-1" 5 envC1 =
      (.ok ⟨"WAIT_LASTGASP", 0, "LastGasp active - monitoring connectivity"⟩, envC1) :=
  c1_lastgasp_short_circuit {} "user-1" "alert-1" 5 envC1
    ⟨lgW, by decide, by decide⟩

def envBoundary : Env := { heartbeats := [hbPerfect] }

/-- C2 counterexample: a heartbeat whose age equals the heartbeat
window exactly (600 s). The claim demands `{AT_RISK, 30, "No heartbeat
for 10 minutes"}`; the code instead falls through to composite scoring
(neither `<` nor `>` fires at equality) and returns `{SAFE, 80}`. -/
theorem c2_counterexample :
    resultOf (EvaluateUserSafety {} "user-1" "alert-1" (600 * nsPerSec) envBoundary) =
      some ⟨"SAFE", 80, "All indicators normal"⟩ ∧
    resultOf (EvaluateUserSafety {} "user-1" "alert-1" (600 * nsPerSec) envBoundary) ≠
      some ⟨"AT_RISK", 30, "No heartbeat for 10 minutes"⟩ := by
  constructor
  · decide
  · decide

/-- C2 (amended): for a user with no active LastGasp whose latest
heartbeat is **strictly** older than the heartbeat window,
`EvaluateUserSafety` returns `{AT_RISK, 30, "No heartbeat for N
minutes"}` with N the age in whole minutes (floor), and performs no
cache write, alert or dispatch; at an age exactly equal to the window
the evaluator instead continues to composite scoring. -/
theorem c2_stale_heartbeat (cfg : Config) (userId fid : String) (now : Int)
    (env : Env) (hb : Heartbeat)
    (hnog : GetActiveLastGasp now env.lastGasps = none)
    (hlatest : GetLatestHeartbeat env.heartbeats = some hb)
    (hage : now - hb.timestamp > cfg.heartbeatWindowSeconds * nsPerSec) :
    EvaluateUserSafety cfg userId fid now env =
      (.ok ⟨"AT_RISK", 30,
        "No heartbeat for " ++
          toString (Int.tdiv (now - hb.timestamp) (60 * nsPerSec)) ++ " minutes"⟩, env) := by
  unfold EvaluateUserSafety
  rw [hnog]
  dsimp only
  rw [hlatest]
  dsimp only
  rw [checkDeterministicRules_stale cfg now hb hage]

def envStale : Env := { heartbeats := [hbPerfect] }

/-- C2 witness: the stale branch at age 700 s (11 whole minutes). -/
theorem c2_witness :
    EvaluateUserSafety {} "user-1" "alert-1" (700 * nsPerSec) envStale =
      (.ok ⟨"AT_RISK", 30, "No heartbeat for " ++
        toString (Int.tdiv (700 * nsPerSec - 0) (60 * nsPerSec)) ++ " minutes"⟩, envStale) :=
  c2_stale_heartbeat {} "user-1" "alert-1" (700 * nsPerSec) envStale hbPerfect
    (by decide) (by decide) (by decide)

def hbDegraded : Heartbeat :=
  { source := "sms", accuracyM := 300, cellInfo := { rssi := -95 },
    batteryPct := some 10, speed := none, timestamp := 0 }

def envDegraded : Env := { heartbeats := [hbDegraded] }

/-- C3: every heartbeat that reaches composite scoring (no active
LastGasp, age below the window, LastGasp flag clear) is mapped SAFE iff
score ≥ 80, CAUTION iff 50 ≤ score < 80 and AT_RISK iff score < 50;
and the degraded example (age 8 min, accuracy 300 m, no speed,
RSSI −95, battery 10, source sms) scores 20+10+15+0+3+10 = 58 and maps
to CAUTION. -/
theorem c3_state_mapping :
    (∀ (cfg : Config) (userId fid : String) (now : Int) (env : Env) (hb : Heartbeat),
      GetActiveLastGasp now env.lastGasps = none →
      GetLatestHeartbeat env.heartbeats = some hb →
      now - hb.timestamp < cfg.heartbeatWindowSeconds * nsPerSec →
      hb.lastGasp = false →
      ∃ r, resultOf (EvaluateUserSafety cfg userId fid now env) = some r ∧
        r.score = calculateSafetyScore now hb ∧
        (r.state = "SAFE" ↔ 80 ≤ r.score) ∧
        (r.state = "CAUTION" ↔ 50 ≤ r.score ∧ r.score < 80) ∧
        (r.state = "AT_RISK" ↔ r.score < 50)) ∧
    resultOf (EvaluateUserSafety {} "user-1" "alert-1" (480 * nsPerSec) envDegraded) =
      some ⟨"CAUTION", 58, "Some indicators concerning - silent check initiated"⟩ := by
  constructor
  · intro cfg userId fid now env hb hnog hlatest hage hlg
    have hdet : checkDeterministicRules cfg now hb = none :=
      checkDeterministicRules_none cfg now hb hlg (le_of_lt hage)
    refine ⟨⟨stateForScore (calculateSafetyScore now hb), calculateSafetyScore now hb,
        reasonForScore (calculateSafetyScore now hb)⟩, ?_, rfl, ?_, ?_, ?_⟩
    · rw [resultOf, evaluate_composite cfg userId fid now env hb hnog hlatest hdet]
      rfl
    · exact stateForScore_safe_iff _
    · exact stateForScore_caution_iff _
    · exact stateForScore_atrisk_iff _
  · decide

/-- C3 witness: the general mapping instantiated on the degraded
example environment. -/
theorem c3_witness :
    ∃ r, resultOf (EvaluateUserSafety {} "user-1" "alert-1" (480 * nsPerSec) envDegraded) =
      some r ∧
      r.score = calculateSafetyScore (480 * nsPerSec) hbDegraded ∧
      (r.state = "SAFE" ↔ 80 ≤ r.score) ∧
      (r.state = "CAUTION" ↔ 50 ≤ r.score ∧ r.score < 80) ∧
      (r.state = "AT_RISK" ↔ r.score < 50) :=
  c3_state_mapping.1 {} "user-1" "alert-1" (480 * nsPerSec) envDegraded hbDegraded
    (by decide) (by decide) (by decide) (by decide)

/-! ## Score component bounds -/

lemma recencyComponent_mono {t₁ t₂ : Int} (h : t₁ ≤ t₂) :
    recencyComponent t₂ ≤ recencyComponent t₁ := by
  simp only [recencyComponent, nsPerSec]
  split_ifs <;> omega

lemma recencyComponent_ge_10 {t : Int} (h : t ≤ 600 * nsPerSec) :
    10 ≤ recencyComponent t := by
  simp only [nsPerSec] at h
  simp only [recencyComponent, nsPerSec]
  split_ifs <;> omega

lemma accuracyComponent_bounds (a : Int) :
    5 ≤ accuracyComponent a ∧ accuracyComponent a ≤ 20 := by
  unfold accuracyComponent
  split_ifs <;> omega

lemma movementComponent_bounds (s : Option Dec)
    (hspd : ∀ v, s = some v → 0 ≤ v.num) :
    10 ≤ movementComponent s ∧ movementComponent s ≤ 20 := by
  cases s with
  | none => simp [movementComponent]
  | some v =>
    have h0 : 0 ≤ v.num := hspd v rfl
    simp only [movementComponent]
    rcases lt_or_ge v.num (100 * (10 : Int) ^ v.scale) with h | h
    · rw [if_pos ⟨h0, h⟩]
      omega
    · rw [if_neg (fun hc => absurd hc.2 (not_lt.mpr h)), if_pos h]
      omega

lemma signalComponent_bounds (r : Int) :
    0 ≤ signalComponent r ∧ signalComponent r ≤ 10 := by
  unfold signalComponent
  split_ifs <;> omega

lemma sourceComponent_bounds (s : String) :
    3 ≤ sourceComponent s ∧ sourceComponent s ≤ 5 := by
  unfold sourceComponent
  split_ifs <;> omega

lemma batteryComponent_bounds (b : Option Int) :
    5 ≤ batteryComponent b ∧ batteryComponent b ≤ 15 := by
  cases b with
  | none => simp [batteryComponent]
  | some x =>
    simp only [batteryComponent]
    split_ifs <;> omega

lemma clampScore_mono {a b : Int} (h : a ≤ b) : clampScore a ≤ clampScore b := by
  unfold clampScore
  dsimp only
  split_ifs <;> omega

lemma clampScore_ge {a c : Int} (hc : c ≤ a) (hc100 : c ≤ 100) : c ≤ clampScore a := by
  unfold clampScore
  dsimp only
  split_ifs <;> omega

def hbC4 : Heartbeat := { hbPerfect with lastGasp := true }

/-- C4 counterexample: with the LastGasp flag set and otherwise perfect
telemetry, age 599 s scores 60 (deterministic rule 1) while the older
age 600 s scores 80 (rule 1 no longer applies and composite scoring
runs) — increasing the age increases the score. -/
theorem c4_counterexample :
    (599 * nsPerSec : Int) ≤ 600 * nsPerSec ∧
    scoreAt {} (599 * nsPerSec) hbC4 = 60 ∧
    scoreAt {} (600 * nsPerSec) hbC4 = 80 ∧
    ¬ scoreAt {} (600 * nsPerSec) hbC4 ≤ scoreAt {} (599 * nsPerSec) hbC4 := by
  refine ⟨by decide, by decide, by decide, by decide⟩

/-- C4 (amended): with the default 600 s window, for heartbeats whose
LastGasp flag is clear and whose speed (when present) is non-negative
(the data model's legal range), increasing the heartbeat's age never
increases the score produced by the evaluation (deterministic rules
plus composite scoring). With the LastGasp flag set the score can jump
from 60 to up to 80 at the window boundary, and a (physically
illegal) negative speed can push the composite score below the stale
rule's 30 there. -/
theorem c4_score_monotone (hb : Heartbeat) (now₁ now₂ : Int)
    (hlg : hb.lastGasp = false)
    (hspd : ∀ v, hb.speed = some v → 0 ≤ v.num)
    (h12 : now₁ ≤ now₂) :
    scoreAt {} now₂ hb ≤ scoreAt {} now₁ hb := by
  have hW : ({} : Config).heartbeatWindowSeconds * nsPerSec = 600 * nsPerSec := rfl
  obtain ⟨hacc1, hacc2⟩ := accuracyComponent_bounds hb.accuracyM
  obtain ⟨hmov1, hmov2⟩ := movementComponent_bounds hb.speed hspd
  obtain ⟨hsig1, hsig2⟩ := signalComponent_bounds hb.cellInfo.rssi
  obtain ⟨hsrc1, hsrc2⟩ := sourceComponent_bounds hb.source
  obtain ⟨hbat1, hbat2⟩ := batteryComponent_bounds hb.batteryPct
  rcases le_or_lt (now₂ - hb.timestamp) (600 * nsPerSec) with h2 | h2
  · have h1 : now₁ - hb.timestamp ≤ 600 * nsPerSec := by omega
    have e1 : scoreAt {} now₁ hb = calculateSafetyScore now₁ hb := by
      unfold scoreAt
      rw [checkDeterministicRules_none _ _ _ hlg (by rw [hW]; exact h1)]
    have e2 : scoreAt {} now₂ hb = calculateSafetyScore now₂ hb := by
      unfold scoreAt
      rw [checkDeterministicRules_none _ _ _ hlg (by rw [hW]; exact h2)]
    rw [e1, e2]
    unfold calculateSafetyScore
    have hrec := recencyComponent_mono (show now₁ - hb.timestamp ≤ now₂ - hb.timestamp by omega)
    apply clampScore_mono
    omega
  · have e2 : scoreAt {} now₂ hb = 30 := by
      unfold scoreAt
      rw [checkDeterministicRules_stale _ _ _ (by rw [hW]; omega)]
    rw [e2]
    rcases le_or_lt (now₁ - hb.timestamp) (600 * nsPerSec) with h1 | h1
    · have e1 : scoreAt {} now₁ hb = calculateSafetyScore now₁ hb := by
        unfold scoreAt
        rw [checkDeterministicRules_none _ _ _ hlg (by rw [hW]; exact h1)]
      rw [e1]
      unfold calculateSafetyScore
      have hrec := recencyComponent_ge_10 h1
      exact clampScore_ge (by omega) (by norm_num)
    · have e1 : scoreAt {} now₁ hb = 30 := by
        unfold scoreAt
        rw [checkDeterministicRules_stale _ _ _ (by rw [hW]; omega)]
      rw [e1]

/-- C4 witness: the degraded heartbeat aged from 8 min to 15 min. -/
theorem c4_witness :
    scoreAt {} (900 * nsPerSec) hbDegraded ≤ scoreAt {} (480 * nsPerSec) hbDegraded :=
  c4_score_monotone hbDegraded (480 * nsPerSec) (900 * nsPerSec) rfl
    (fun v hv => nomatch hv) (by decide)

/-! ## Alert-side invariants of a single evaluation -/

lemma evaluate_only_cache (cfg : Config) (userId fid : String) (now : Int) (env : Env) :
    (EvaluateUserSafety cfg userId fid now env).2 =
      { env with cachedState := ((EvaluateUserSafety cfg userId fid now env).2).cachedState } := by
  unfold EvaluateUserSafety
  cases hg : GetActiveLastGasp now env.lastGasps with
  | some lg => rfl
  | none =>
    dsimp only
    cases hl : GetLatestHeartbeat env.heartbeats with
    | none => rfl
    | some hb =>
      dsimp only
      cases hd : checkDeterministicRules cfg now hb with
      | some r => rfl
      | none =>
        dsimp only
        rw [handleStateTransition_self userId fid now
          { env with cachedState := some ⟨userId, stateForScore (calculateSafetyScore now hb),
              calculateSafetyScore now hb, hb.timestamp, now⟩ }
          (stateForScore (calculateSafetyScore now hb)) (calculateSafetyScore now hb)
          (reasonForScore (calculateSafetyScore now hb))
          ⟨userId, stateForScore (calculateSafetyScore now hb), calculateSafetyScore now hb,
            hb.timestamp, now⟩ rfl rfl (stateForScore_ne_alert _)]

lemma evaluate_alerts_eq (cfg : Config) (userId fid : String) (now : Int) (env : Env) :
    ((EvaluateUserSafety cfg userId fid now env).2).alerts = env.alerts := by
  rw [evaluate_only_cache cfg userId fid now env]

lemma evaluate_dispatch_eq (cfg : Config) (userId fid : String) (now : Int) (env : Env) :
    ((EvaluateUserSafety cfg userId fid now env).2).dispatchCount = env.dispatchCount := by
  rw [evaluate_only_cache cfg userId fid now env]

/-- C8: two consecutive (non-interleaved) evaluations of the same user
that both map to AT_RISK within one 5-minute window persist at most one
Alert row and at most one notifier burst; the second evaluation creates
no alert and dispatches nothing. (In this sequential model the
evaluator in fact never creates an alert at all: the state cache is
written before `handleStateTransition` reads the "previous" state, so
the no-change early return always fires.) -/
theorem c8_alert_dedup (cfg : Config) (userId fid₁ fid₂ : String) (now₁ now₂ : Int)
    (env : Env) (r₁ r₂ : EvaluationResult)
    (h₁ : resultOf (EvaluateUserSafety cfg userId fid₁ now₁ env) = some r₁)
    (hs₁ : r₁.state = "AT_RISK")
    (h₂ : resultOf (EvaluateUserSafety cfg userId fid₂ now₂
        ((EvaluateUserSafety cfg userId fid₁ now₁ env).2)) = some r₂)
    (hs₂ : r₂.state = "AT_RISK")
    (hwin : now₁ ≤ now₂ ∧ now₂ ≤ now₁ + 300 * nsPerSec) :
    ((EvaluateUserSafety cfg userId fid₂ now₂
        ((EvaluateUserSafety cfg userId fid₁ now₁ env).2)).2).alerts =
      ((EvaluateUserSafety cfg userId fid₁ now₁ env).2).alerts ∧
    ((EvaluateUserSafety cfg userId fid₂ now₂
        ((EvaluateUserSafety cfg userId fid₁ now₁ env).2)).2).dispatchCount =
      ((EvaluateUserSafety cfg userId fid₁ now₁ env).2).dispatchCount ∧
    ((EvaluateUserSafety cfg userId fid₂ now₂
        ((EvaluateUserSafety cfg userId fid₁ now₁ env).2)).2).alerts.length ≤
      env.alerts.length + 1 := by
  refine ⟨evaluate_alerts_eq _ _ _ _ _, evaluate_dispatch_eq _ _ _ _ _, ?_⟩
  rw [evaluate_alerts_eq, evaluate_alerts_eq]
  omega

/-- C8 witness: the stale environment evaluated at 700 s and 800 s —
both evaluations map to AT_RISK 30 s apart, and no alert row or
dispatch is added. -/
theorem c8_witness :
    ((EvaluateUserSafety {} "user-1" "a2" (800 * nsPerSec)
        ((EvaluateUserSafety {} "user-1" "a1" (700 * nsPerSec) envStale).2)).2).alerts =
      ((EvaluateUserSafety {} "user-1" "a1" (700 * nsPerSec) envStale).2).alerts ∧
    ((EvaluateUserSafety {} "user-1" "a2" (800 * nsPerSec)
        ((EvaluateUserSafety {} "user-1" "a1" (700 * nsPerSec) envStale).2)).2).dispatchCount =
      ((EvaluateUserSafety {} "user-1" "a1" (700 * nsPerSec) envStale).2).dispatchCount ∧
    ((EvaluateUserSafety {} "user-1" "a2" (800 * nsPerSec)
        ((EvaluateUserSafety {} "user-1" "a1" (700 * nsPerSec) envStale).2)).2).alerts.length ≤
      envStale.alerts.length + 1 :=
  c8_alert_dedup {} "user-1" "a1" "a2" (700 * nsPerSec) (800 * nsPerSec) envStale
    ⟨"AT_RISK", 30, "No heartbeat for 11 minutes"⟩
    ⟨"AT_RISK", 30, "No heartbeat for 13 minutes"⟩
    (by decide) rfl (by decide) rfl ⟨by decide, by decide⟩

/-! ## State-cache invariant -/

/-- Every cached `UserState` holds one of the three states the
composite path can write. -/
def cacheStateOk (env : Env) : Prop :=
  ∀ s, env.cachedState = some s →
    s.state = "SAFE" ∨ s.state = "CAUTION" ∨ s.state = "AT_RISK"

lemma evaluate_cachedState (cfg : Config) (userId fid : String) (now : Int) (env : Env) :
    ((EvaluateUserSafety cfg userId fid now env).2).cachedState = env.cachedState ∨
    ∃ s ts, ((EvaluateUserSafety cfg userId fid now env).2).cachedState =
      some ⟨userId, stateForScore s, s, ts, now⟩ := by
  unfold EvaluateUserSafety
  cases hg : GetActiveLastGasp now env.lastGasps with
  | some lg => exact Or.inl rfl
  | none =>
    dsimp only
    cases hl : GetLatestHeartbeat env.heartbeats with
    | none => exact Or.inl rfl
    | some hb =>
      dsimp only
      cases hd : checkDeterministicRules cfg now hb with
      | some r => exact Or.inl rfl
      | none =>
        dsimp only
        rw [handleStateTransition_self userId fid now
          { env with cachedState := some ⟨userId, stateForScore (calculateSafetyScore now hb),
              calculateSafetyScore now hb, hb.timestamp, now⟩ }
          (stateForScore (calculateSafetyScore now hb)) (calculateSafetyScore now hb)
          (reasonForScore (calculateSafetyScore now hb))
          ⟨userId, stateForScore (calculateSafetyScore now hb), calculateSafetyScore now hb,
            hb.timestamp, now⟩ rfl rfl (stateForScore_ne_alert _)]
        exact Or.inr ⟨calculateSafetyScore now hb, hb.timestamp, rfl⟩

lemma evaluate_cacheOk (cfg : Config) (userId fid : String) (now : Int) (env : Env)
    (h : cacheStateOk env) :
    cacheStateOk ((EvaluateUserSafety cfg userId fid now env).2) := by
  rcases evaluate_cachedState cfg userId fid now env with he | ⟨s, ts, he⟩
  · intro u hu
    exact h u (he ▸ hu)
  · intro u hu
    rw [he] at hu
    injection hu with h'
    rw [← h']
    exact stateForScore_cases s

lemma resolveHandler_cachedState (env : Env) (idStr : Str) (now : Int) :
    ((ResolveAlertHandler env idStr now).2).cachedState = env.cachedState := by
  unfold ResolveAlertHandler
  cases uuidParse idStr <;> rfl

lemma applyOp_cacheOk (cfg : Config) (userId : String) (env : Env) (op : SysOp)
    (h : cacheStateOk env) : cacheStateOk (applyOp cfg userId env op) := by
  cases op with
  | evaluate fid now => exact evaluate_cacheOk cfg userId fid now env h
  | addHeartbeat hb => exact fun s hs => h s hs
  | addLastGasp lg => exact fun s hs => h s hs
  | resolveAlert idStr now =>
    intro s hs
    refine h s ?_
    rw [← resolveHandler_cachedState env idStr now]
    exact hs
  | cacheExpire => exact fun s hs => Option.noConfusion hs
  | alertMarkExpire => exact fun s hs => h s hs

lemma applyOps_cacheOk (cfg : Config) (userId : String) (ops : List SysOp) :
    ∀ env, cacheStateOk env → cacheStateOk (applyOps cfg userId env ops) := by
  induction ops with
  | nil => exact fun env h => h
  | cons op t ih =>
    intro env h
    exact ih (applyOp cfg userId env op) (applyOp_cacheOk cfg userId env op h)

/-- C10: starting from an empty state cache, no sequence of system
operations (evaluations, heartbeat/LastGasp inserts, alert
resolutions, cache-key expiries) ever leaves WAIT_LASTGASP in the
state cache — `EvaluateUserSafety` returns WAIT_LASTGASP before the
`SetUserState` write — so `GetUserStatus` never reports
WAIT_LASTGASP: while a LastGasp is active it serves the previously
cached state or UNKNOWN. -/
theorem c10_status_never_wait_lastgasp (cfg : Config) (userId : String)
    (ops : List SysOp) :
    cacheStateOk (applyOps cfg userId {} ops) ∧
    GetUserStatus (applyOps cfg userId {} ops) ≠ "WAIT_LASTGASP" := by
  have hok : cacheStateOk (applyOps cfg userId {} ops) :=
    applyOps_cacheOk cfg userId ops {} (fun s hs => Option.noConfusion hs)
  refine ⟨hok, ?_⟩
  unfold GetUserStatus
  cases hc : (applyOps cfg userId {} ops).cachedState with
  | none => decide
  | some s =>
    rcases hok s hc with h | h | h <;> · dsimp only; rw [h]; decide

/-! ## Alert resolution -/

def alertIdA : Str := "aaaaaaaa-bbbb-cccc-dddd-eeeeeeeeeeee".data

def alertRowA : Alert :=
  { id := "aaaaaaaa-bbbb-cccc-dddd-eeeeeeeeeeee", userId := "user-1",
    state := "AT_RISK", score := 30, createdAt := 50 }

def envC9 : Env := { alerts := [alertRowA] }

def alertIdMissing : Str := "99999999-8888-7777-6666-555555555555".data

/-- C9 counterexample: resolving the same alert id twice re-stamps
`resolved_at` with the later time (the first stamp is not preserved),
and resolving an id with no persisted alert answers HTTP 200 success,
not 404. -/
theorem c9_counterexample :
    ((ResolveAlertHandler envC9 alertIdA 100).2).alerts.map Alert.resolvedAt = [some 100] ∧
    ((ResolveAlertHandler ((ResolveAlertHandler envC9 alertIdA 100).2) alertIdA 200).2).alerts.map
        Alert.resolvedAt = [some 200] ∧
    some (200 : Int) ≠ some (100 : Int) ∧
    (ResolveAlertHandler {} alertIdMissing 300).1 = 200 ∧
    (ResolveAlertHandler {} alertIdMissing 300).1 ≠ 404 := by
  refine ⟨by decide, by decide, by decide, by decide, by decide⟩

/-- C9 (amended): for every well-formed alert id, `ResolveAlert`
answers 200 and stamps `resolved_at = now` on every matching row, on
**every** call — a repeated resolution overwrites the stored timestamp
with the later time, and an id matching no row still answers 200
success (the handler checks no affected-row count and never maps an
unknown alert to 404). -/
theorem c9_resolve_restamps (env : Env) (idStr aid : Str) (now : Int)
    (hid : uuidParse idStr = some aid) :
    (ResolveAlertHandler env idStr now).1 = 200 ∧
    ((ResolveAlertHandler env idStr now).2).alerts =
      env.alerts.map (fun a =>
        if a.id = String.mk aid then { a with resolvedAt := some now } else a) := by
  unfold ResolveAlertHandler
  rw [hid]
  exact ⟨rfl, rfl⟩

/-- C9 witness: the amended behaviour on the concrete one-alert store. -/
theorem c9_witness :
    (ResolveAlertHandler envC9 alertIdA 100).1 = 200 ∧
    ((ResolveAlertHandler envC9 alertIdA 100).2).alerts =
      envC9.alerts.map (fun a =>
        if a.id = String.mk alertIdA then { a with resolvedAt := some (100 : Int) } else a) :=
  c9_resolve_restamps envC9 alertIdA alertIdA 100 (by decide)

/-! ## C5: the bytes the SMS webhook verifies -/

def bodyTrailingWs : Str :=
  ("uid=550e8400-e29b-41d4-a716-446655440000;ts=2025-11-19T12:50:00Z;" ++
   "lat=6.5244;lng=3.3792;acc=200;cell=621,20,12345,678,-85;sig=abc ").data

set_option maxRecDepth 20000 in
/-- C5 counterexample: a body with a single trailing space after the
signature parses fine (values are trimmed, so the recovered signature
is `abc`), but the webhook's slice `body[:len(body)-len(sig)-5]` then
ends with a stray `;` — it is not the substring preceding `;sig=`. -/
theorem c5_counterexample :
    (ParseHeartbeatSMS "f1" 0 bodyTrailingWs).toOption.map SmsHeartbeat.signature =
      some "abc".data ∧
    smsVerifiedBytes bodyTrailingWs "abc".data ≠ specSignedBytes bodyTrailingWs := by
  refine ⟨by decide, by decide⟩

/-- C5 (amended): the verified bytes equal the substring preceding
`;sig=` exactly when `;sig=<sig>` is the untrimmed final suffix of the
body: the code always cuts `len(sig) + 5` bytes off the **end** of the
body, which recovers the prefix for bodies of the form
`p ++ ";sig=" ++ sig`, and diverges whenever the sig pair is not last
or carries surrounding whitespace. -/
theorem c5_verified_bytes (p sig : Str) :
    smsVerifiedBytes (p ++ ";sig=".data ++ sig) sig = p := by
  unfold smsVerifiedBytes
  have h5 : (";sig=".data : Str).length = 5 := rfl
  have hlen : (p ++ ";sig=".data ++ sig).length - sig.length - 5 = p.length := by
    simp only [List.length_append, h5]
    omega
  rw [hlen, List.append_assoc, List.take_left]

/-! ## C6: parse failures -/

def errOf : Except String SmsHeartbeat → Option String
  | .error e => some e
  | .ok _ => none

/-- A part whose key is one of the fields the parser treats strictly
and whose value fails its parser. `bat` and `spd` are deliberately not
here: the Go code assigns them only on `err == nil` and swallows the
failure. -/
def coreParseFailure (part : Str) : Bool :=
  match splitFirst '=' part with
  | none => false
  | some (k, v) =>
    (trimSpace k == "uid".data && (uuidParse (trimSpace v)).isNone) ||
    (trimSpace k == "ts".data && (tsParse (trimSpace v)).isNone) ||
    (trimSpace k == "lat".data && (goParseFloat (trimSpace v)).isNone) ||
    (trimSpace k == "lng".data && (goParseFloat (trimSpace v)).isNone) ||
    (trimSpace k == "acc".data && (goAtoi (trimSpace v)).isNone) ||
    (trimSpace k == "cell".data && (parseCellInfo (trimSpace v)).isNone)

lemma processPart_ok_not_failure (hb hb' : SmsHeartbeat) (part : Str)
    (h : processPart hb part = .ok hb') : coreParseFailure part = false := by
  cases hsp : splitFirst '=' part with
  | none => unfold coreParseFailure; rw [hsp]
  | some kv =>
    obtain ⟨k, v⟩ := kv
    unfold coreParseFailure
    rw [hsp]
    dsimp only
    by_contra hf
    rw [Bool.not_eq_false] at hf
    simp only [Bool.or_eq_true, Bool.and_eq_true, beq_iff_eq,
      Option.isNone_iff_eq_none, or_assoc] at hf
    unfold processPart at h
    rw [hsp] at h
    dsimp only at h
    rcases hf with ⟨hk, hv⟩ | ⟨hk, hv⟩ | ⟨hk, hv⟩ | ⟨hk, hv⟩ | ⟨hk, hv⟩ | ⟨hk, hv⟩ <;>
        rw [hk] at h
    · rw [if_pos rfl, hv] at h
      simp at h
    · rw [if_neg (by decide), if_pos rfl, hv] at h
      simp at h
    · rw [if_neg (by decide), if_neg (by decide), if_pos rfl, hv] at h
      simp at h
    · rw [if_neg (by decide), if_neg (by decide), if_neg (by decide), if_pos rfl, hv] at h
      simp at h
    · rw [if_neg (by decide), if_neg (by decide), if_neg (by decide), if_neg (by decide),
        if_pos rfl, hv] at h
      simp at h
    · rw [if_neg (by decide), if_neg (by decide), if_neg (by decide), if_neg (by decide),
        if_neg (by decide), if_pos rfl, hv] at h
      simp at h

lemma processParts_ok_not_failure (parts : List Str) :
    ∀ hb hb', processParts hb parts = .ok hb' →
      ∀ p ∈ parts, coreParseFailure p = false := by
  induction parts with
  | nil =>
    intro hb hb' _ p hp
    exact absurd hp (List.not_mem_nil p)
  | cons q t ih =>
    intro hb hb' h p hp
    unfold processParts at h
    cases hq : processPart hb q with
    | error e =>
      rw [hq] at h
      simp at h
    | ok hb₁ =>
      rw [hq] at h
      rcases List.mem_cons.mp hp with rfl | hp'
      · exact processPart_ok_not_failure hb hb₁ p hq
      · exact ih hb₁ hb' h p hp'

lemma parse_ok_shape (fid : String) (now : Int) (body : Str) (hb : SmsHeartbeat)
    (h : ParseHeartbeatSMS fid now body = .ok hb) :
    processParts { id := fid, source := "sms", createdAt := now }
        (splitOnChar ';' body) = .ok hb ∧
    hb.userId ≠ nilUuid ∧ hb.timestamp ≠ none ∧ hb.timestamp ≠ some zeroTs ∧
      hb.signature ≠ [] := by
  unfold ParseHeartbeatSMS at h
  dsimp only at h
  by_cases hlen : (splitOnChar ';' body).length < 6
  · rw [if_pos hlen] at h
    simp at h
  · rw [if_neg hlen] at h
    cases hpp : processParts { id := fid, source := "sms", createdAt := now }
        (splitOnChar ';' body) with
    | error e =>
      rw [hpp] at h
      simp at h
    | ok hb₀ =>
      rw [hpp] at h
      dsimp only at h
      by_cases h1 : hb₀.userId = nilUuid
      · rw [if_pos h1] at h
        simp at h
      · rw [if_neg h1] at h
        by_cases h2 : hb₀.timestamp = none ∨ hb₀.timestamp = some zeroTs
        · rw [if_pos h2] at h
          simp at h
        · rw [if_neg h2] at h
          by_cases h3 : hb₀.signature = []
          · rw [if_pos h3] at h
            simp at h
          · rw [if_neg h3] at h
            injection h with h'
            subst h'
            push_neg at h2
            exact ⟨rfl, h1, h2.1, h2.2, h3⟩

def bodyBadBat : Str :=
  ("uid=550e8400-e29b-41d4-a716-446655440000;ts=2025-11-19T12:50:00Z;" ++
   "lat=6.5244;lng=3.3792;acc=200;cell=621,20,12345,678,-85;bat=abc;sig=xyz").data

def bodyBadLat : Str :=
  ("uid=550e8400-e29b-41d4-a716-446655440000;ts=2025-11-19T12:50:00Z;" ++
   "lat=abc;lng=3.3792;acc=200;cell=621,20,12345,678,-85;sig=xyz").data

def bodyNoSig : Str :=
  ("uid=550e8400-e29b-41d4-a716-446655440000;ts=2025-11-19T12:50:00Z;" ++
   "lat=6.5244;lng=3.3792;acc=200;cell=621,20,12345,678,-85").data

set_option maxRecDepth 20000 in
/-- C6 counterexample: `bat=abc` fails numeric parsing, yet
`ParseHeartbeatSMS` returns a heartbeat (with the battery left unset)
instead of the InvalidFormat error the claim demands — the Go code
assigns `bat`/`spd` only when parsing succeeds and swallows the
error. -/
theorem c6_counterexample :
    (ParseHeartbeatSMS "f1" 0 bodyBadBat).toOption.map SmsHeartbeat.batteryPct =
      some none ∧
    (ParseHeartbeatSMS "f1" 0 bodyBadBat).toOption ≠ none := by
  refine ⟨by decide, by decide⟩

set_option maxRecDepth 20000 in
/-- C6 (amended): a recognized strict key (`uid`, `ts`, `lat`, `lng`,
`acc`, `cell`) whose value fails to parse makes `ParseHeartbeatSMS`
return an InvalidFormat error naming the offending field (no heartbeat
is returned), and a body missing `uid`, `ts` or `sig` is likewise an
InvalidFormat error; a malformed `bat` or `spd` value, however, is
silently ignored and the field left unset. -/
theorem c6_invalid_format :
    (∀ (fid : String) (now : Int) (body part : Str),
      part ∈ splitOnChar ';' body → coreParseFailure part = true →
      (ParseHeartbeatSMS fid now body).toOption = none) ∧
    (∀ (fid : String) (now : Int) (body : Str) (hb : SmsHeartbeat),
      (ParseHeartbeatSMS fid now body).toOption = some hb →
      hb.userId ≠ nilUuid ∧ hb.timestamp ≠ none ∧ hb.timestamp ≠ some zeroTs ∧
        hb.signature ≠ []) ∧
    errOf (ParseHeartbeatSMS "f1" 0 bodyBadLat) = some "invalid latitude" ∧
    errOf (ParseHeartbeatSMS "f1" 0 bodyNoSig) = some "missing signature" := by
  refine ⟨?_, ?_, by decide, by decide⟩
  · intro fid now body part hp hfail
    cases hres : ParseHeartbeatSMS fid now body with
    | error e => rfl
    | ok hb =>
      have hno := processParts_ok_not_failure _ _ _
        (parse_ok_shape fid now body hb hres).1 part hp
      rw [hfail] at hno
      exact Bool.noConfusion hno
  · intro fid now body hb htop
    cases hres : ParseHeartbeatSMS fid now body with
    | error e =>
      rw [hres] at htop
      simp [Except.toOption] at htop
    | ok hb₀ =>
      rw [hres] at htop
      simp only [Except.toOption, Option.some.injEq] at htop
      subst htop
      exact (parse_ok_shape fid now body hb₀ hres).2

/-- C6 witness: the bad-latitude body is rejected. -/
theorem c6_witness :
    (ParseHeartbeatSMS "f1" 0 bodyBadLat).toOption = none :=
  c6_invalid_format.1 "f1" 0 bodyBadLat "lat=abc".data (by decide) (by decide)

/-! ## C7: digit formatting round-trips -/

lemma digitChar_isDigit {d : Nat} (h : d < 10) : (digitChar d).isDigit = true := by
  interval_cases d <;> decide

lemma digitVal_digitChar {d : Nat} (h : d < 10) : digitVal (digitChar d) = some d := by
  interval_cases d <;> decide

lemma digit_not_special {c : Char} (h : c.isDigit = true) :
    isSpaceChar c = false ∧ c ≠ ';' ∧ c ≠ '.' ∧ c ≠ ',' ∧ c ≠ '=' ∧
      c ≠ '+' ∧ c ≠ '-' := by
  have h1 : c ≠ ' ' := fun hc => by subst hc; exact absurd h (by decide)
  have h2 : c ≠ '\t' := fun hc => by subst hc; exact absurd h (by decide)
  have h3 : c ≠ '\n' := fun hc => by subst hc; exact absurd h (by decide)
  have h4 : c ≠ '\r' := fun hc => by subst hc; exact absurd h (by decide)
  refine ⟨by simp [isSpaceChar, h1, h2, h3, h4], ?_, ?_, ?_, ?_, ?_, ?_⟩ <;>
    exact fun hc => by subst hc; exact absurd h (by decide)

lemma natToDigitsAux_digits (fuel : Nat) :
    ∀ n, ∀ c ∈ natToDigitsAux fuel n, c.isDigit = true := by
  induction fuel with
  | zero => intro n c hc; exact absurd hc (List.not_mem_nil c)
  | succ f ih =>
    intro n c hc
    unfold natToDigitsAux at hc
    by_cases hn : n < 10
    · rw [if_pos hn] at hc
      rcases List.mem_singleton.mp hc with rfl
      exact digitChar_isDigit hn
    · rw [if_neg hn] at hc
      rcases List.mem_append.mp hc with hc' | hc'
      · exact ih (n / 10) c hc'
      · rcases List.mem_singleton.mp hc' with rfl
        exact digitChar_isDigit (Nat.mod_lt n (by norm_num))

lemma natToDigits_digits (n : Nat) : ∀ c ∈ natToDigits n, c.isDigit = true :=
  natToDigitsAux_digits (n + 1) n

lemma natToDigitsAux_ne_nil (fuel n : Nat) : natToDigitsAux (fuel + 1) n ≠ [] := by
  unfold natToDigitsAux
  by_cases hn : n < 10
  · rw [if_pos hn]
    exact List.cons_ne_nil _ _
  · rw [if_neg hn]
    simp

lemma parseNatGo_append (acc : Nat) (xs ys : Str) :
    parseNatGo acc (xs ++ ys) = (parseNatGo acc xs).bind (fun m => parseNatGo m ys) := by
  induction xs generalizing acc with
  | nil => rfl
  | cons c cs ih =>
    show parseNatGo acc (c :: (cs ++ ys)) =
      (parseNatGo acc (c :: cs)).bind (fun m => parseNatGo m ys)
    rw [parseNatGo, parseNatGo]
    cases hd : digitVal c with
    | none => rfl
    | some d => exact ih (10 * acc + d)

lemma parseNatGo_natToDigitsAux (fuel : Nat) :
    ∀ n acc, n < fuel →
      parseNatGo acc (natToDigitsAux fuel n) =
        some (acc * 10 ^ (natToDigitsAux fuel n).length + n) := by
  induction fuel with
  | zero => intro n acc h; exact absurd h (Nat.not_lt_zero n)
  | succ f ih =>
    intro n acc h
    unfold natToDigitsAux
    by_cases hn : n < 10
    · rw [if_pos hn]
      simp only [parseNatGo, digitVal_digitChar hn, List.length_singleton]
      norm_num
      ring
    · rw [if_neg hn]
      have hdiv : n / 10 < f := by
        have h1 : n / 10 < n := Nat.div_lt_self (by omega) (by norm_num)
        omega
      rw [parseNatGo_append]
      rw [ih (n / 10) acc hdiv]
      rw [Option.some_bind]
      simp only [parseNatGo, digitVal_digitChar (Nat.mod_lt n (show 0 < 10 by norm_num))]
      have hmod : 10 * (acc * 10 ^ (natToDigitsAux f (n / 10)).length + n / 10) + n % 10 =
          acc * 10 ^ ((natToDigitsAux f (n / 10)).length + 1) + n := by
        rw [pow_succ]
        have := Nat.div_add_mod n 10
        ring_nf
        omega
      simp only [List.length_append, List.length_singleton]
      rw [hmod]

lemma parseNatDigits_natToDigits (n : Nat) : parseNatDigits (natToDigits n) = some n := by
  have hne : natToDigits n ≠ [] := natToDigitsAux_ne_nil n n
  have hgo : parseNatGo 0 (natToDigits n) = some (0 * 10 ^ (natToDigits n).length + n) :=
    parseNatGo_natToDigitsAux (n + 1) n 0 (Nat.lt_succ_self n)
  rw [zero_mul, zero_add] at hgo
  cases hl : natToDigits n with
  | nil => exact absurd hl hne
  | cons c cs =>
    rw [hl] at hgo
    exact hgo

lemma digit6_parse (a f : Nat) (hf : f < 1000000) :
    parseNatGo a (digit6 f) = some (a * 1000000 + f) := by
  have hd : ∀ m : Nat, digitVal (digitChar (m % 10)) = some (m % 10) :=
    fun m => digitVal_digitChar (Nat.mod_lt m (by norm_num))
  simp only [digit6, parseNatGo, hd]
  congr 1
  omega

lemma digit6_digits (f : Nat) : ∀ c ∈ digit6 f, c.isDigit = true := by
  intro c hc
  simp only [digit6, List.mem_cons, List.not_mem_nil, or_false] at hc
  rcases hc with rfl | rfl | rfl | rfl | rfl | rfl <;>
    exact digitChar_isDigit (Nat.mod_lt _ (by norm_num))

lemma dropWhile_eq_self_of_all {p : Char → Bool} {s : Str}
    (h : ∀ c ∈ s, p c = false) : s.dropWhile p = s := by
  cases s with
  | nil => rfl
  | cons c cs =>
    rw [List.dropWhile_cons, h c (by simp)]
    simp

lemma trimSpace_eq_self {s : Str} (h : ∀ c ∈ s, isSpaceChar c = false) :
    trimSpace s = s := by
  unfold trimSpace
  rw [dropWhile_eq_self_of_all h,
    dropWhile_eq_self_of_all (fun c hc => h c (List.mem_reverse.mp hc)),
    List.reverse_reverse]

lemma numeric_wire_ok {s : Str}
    (h : ∀ c ∈ s, c.isDigit = true ∨ c = '-' ∨ c = '.') :
    (';' ∉ s) ∧ ('=' ∉ s) ∧ (',' ∉ s) ∧ trimSpace s = s := by
  have hns : ∀ c ∈ s, isSpaceChar c = false := by
    intro c hc
    rcases h c hc with hd | rfl | rfl
    · exact (digit_not_special hd).1
    · decide
    · decide
  refine ⟨?_, ?_, ?_, trimSpace_eq_self hns⟩
  · exact fun hm => absurd (h ';' hm) (by decide)
  · exact fun hm => absurd (h '=' hm) (by decide)
  · exact fun hm => absurd (h ',' hm) (by decide)

lemma fmtInt_chars (i : Int) : ∀ c ∈ fmtInt i, c.isDigit = true ∨ c = '-' ∨ c = '.' := by
  intro c hc
  unfold fmtInt at hc
  rcases List.mem_append.mp hc with hc' | hc'
  · by_cases hneg : i < 0
    · rw [if_pos hneg] at hc'
      rcases List.mem_singleton.mp hc' with rfl
      exact Or.inr (Or.inl rfl)
    · rw [if_neg hneg] at hc'
      exact absurd hc' (List.not_mem_nil c)
  · exact Or.inl (natToDigits_digits _ c hc')

lemma fmtF6_chars (d : Dec) : ∀ c ∈ fmtF6 d, c.isDigit = true ∨ c = '-' ∨ c = '.' := by
  intro c hc
  unfold fmtF6 at hc
  rcases List.mem_append.mp hc with hc' | hc'
  · by_cases hneg : d.num < 0
    · rw [if_pos hneg] at hc'
      rcases List.mem_singleton.mp hc' with rfl
      exact Or.inr (Or.inl rfl)
    · rw [if_neg hneg] at hc'
      exact absurd hc' (List.not_mem_nil c)
  · rcases List.mem_append.mp hc' with hc'' | hc''
    · exact Or.inl (natToDigits_digits _ c hc'')
    · rcases List.mem_cons.mp hc'' with rfl | hc'''
      · exact Or.inr (Or.inr rfl)
      · exact Or.inl (digit6_digits _ c hc''')

lemma fmtF1_chars (d : Dec) : ∀ c ∈ fmtF1 d, c.isDigit = true ∨ c = '-' ∨ c = '.' := by
  intro c hc
  unfold fmtF1 at hc
  rcases List.mem_append.mp hc with hc' | hc'
  · by_cases hneg : d.num < 0
    · rw [if_pos hneg] at hc'
      rcases List.mem_singleton.mp hc' with rfl
      exact Or.inr (Or.inl rfl)
    · rw [if_neg hneg] at hc'
      exact absurd hc' (List.not_mem_nil c)
  · rcases List.mem_append.mp hc' with hc'' | hc''
    · exact Or.inl (natToDigits_digits _ c hc'')
    · rcases List.mem_cons.mp hc'' with rfl | hc'''
      · exact Or.inr (Or.inr rfl)
      · rcases List.mem_singleton.mp hc''' with rfl
        exact Or.inl (digitChar_isDigit (Nat.mod_lt _ (by norm_num)))

lemma splitFirst_append (sep : Char) (xs ys : Str) (h : sep ∉ xs) :
    splitFirst sep (xs ++ sep :: ys) = some (xs, ys) := by
  induction xs with
  | nil => simp [splitFirst]
  | cons c cs ih =>
    have hc : c ≠ sep := fun hc => h (hc ▸ List.mem_cons_self c cs)
    simp only [List.cons_append]
    unfold splitFirst
    rw [if_neg hc, ih (fun hm => h (List.mem_cons_of_mem c hm))]
    rfl

lemma splitOnChar_single {sep : Char} {s : Str} (h : sep ∉ s) :
    splitOnChar sep s = [s] := by
  induction s with
  | nil => rfl
  | cons c cs ih =>
    have hc : c ≠ sep := fun hc => h (hc ▸ List.mem_cons_self c cs)
    unfold splitOnChar
    rw [if_neg hc, ih (fun hm => h (List.mem_cons_of_mem c hm))]

lemma splitOnChar_append (sep : Char) (xs rest : Str) (h : sep ∉ xs) :
    splitOnChar sep (xs ++ sep :: rest) = xs :: splitOnChar sep rest := by
  induction xs with
  | nil => simp [splitOnChar]
  | cons c cs ih =>
    have hc : c ≠ sep := fun hc => h (hc ▸ List.mem_cons_self c cs)
    simp only [List.cons_append]
    rw [splitOnChar]
    rw [if_neg hc, ih (fun hm => h (List.mem_cons_of_mem c hm))]

lemma joinSemis_split (parts : List Str) (hne : parts ≠ [])
    (h : ∀ p ∈ parts, ';' ∉ p) :
    splitOnChar ';' (joinSemis parts) = parts := by
  induction parts with
  | nil => exact absurd rfl hne
  | cons p ps ih =>
    cases ps with
    | nil => exact splitOnChar_single (h p (by simp))
    | cons q qs =>
      show splitOnChar ';' (p ++ ';' :: joinSemis (q :: qs)) = p :: (q :: qs)
      rw [splitOnChar_append ';' p _ (h p (by simp)),
        ih (by simp) (fun r hr => h r (List.mem_cons_of_mem p hr))]

lemma natToDigits_ne_nil (n : Nat) : natToDigits n ≠ [] := natToDigitsAux_ne_nil n n

lemma goAtoi_digits (s : Str) (hne : s ≠ []) (hd : ∀ c ∈ s, c.isDigit = true) :
    goAtoi s = (parseNatDigits s).map (fun n => (n : Int)) := by
  cases s with
  | nil => exact absurd rfl hne
  | cons c cs =>
    obtain ⟨-, -, -, -, -, hplus, hminus⟩ := digit_not_special (hd c (by simp))
    unfold goAtoi
    dsimp only
    rw [if_neg hplus, if_neg hminus]

lemma goAtoi_fmtInt (i : Int) : goAtoi (fmtInt i) = some i := by
  by_cases hneg : i < 0
  · have hf : fmtInt i = '-' :: natToDigits i.natAbs := by
      unfold fmtInt
      rw [if_pos hneg, List.singleton_append]
    rw [hf]
    unfold goAtoi
    dsimp only
    rw [if_neg (show ('-' : Char) ≠ '+' by decide), if_pos rfl, parseNatDigits_natToDigits]
    show some (-(i.natAbs : Int)) = some i
    congr 1
    omega
  · have hf : fmtInt i = natToDigits i.natAbs := by
      unfold fmtInt
      rw [if_neg hneg, List.nil_append]
    rw [hf]
    rw [goAtoi_digits _ (natToDigits_ne_nil _) (natToDigits_digits _),
      parseNatDigits_natToDigits]
    show some ((i.natAbs : Int)) = some i
    congr 1
    omega

lemma parseNatDigits_of_ne_nil {s : Str} (h : s ≠ []) :
    parseNatDigits s = parseNatGo 0 s := by
  cases s with
  | nil => exact absurd rfl h
  | cons c cs => rfl

lemma parseDecMag_fmt (m : Nat) :
    parseDecMag (natToDigits (m / 1000000) ++ '.' :: digit6 (m % 1000000)) =
      some ⟨((m / 1000000 : Nat) : Int) * 10 ^ 6 + ((m % 1000000 : Nat) : Int), 6⟩ := by
  have hdot : '.' ∉ natToDigits (m / 1000000) := fun hm =>
    absurd (natToDigits_digits _ '.' hm) (by decide)
  unfold parseDecMag
  rw [splitFirst_append '.' _ _ hdot]
  dsimp only
  cases hI : natToDigits (m / 1000000) with
  | nil => exact absurd hI (natToDigits_ne_nil _)
  | cons c cs =>
    cases hF : digit6 (m % 1000000) with
    | nil => exact absurd (congrArg List.length hF) (by simp [digit6])
    | cons e es =>
      dsimp only
      rw [← hI, ← hF, parseNatDigits_natToDigits,
        parseNatDigits_of_ne_nil (hF ▸ List.cons_ne_nil e es)]
      rw [digit6_parse 0 (m % 1000000) (Nat.mod_lt m (by norm_num))]
      have h6 : (digit6 (m % 1000000)).length = 6 := rfl
      rw [h6]
      simp

lemma decScaled_eq (d : Dec) (h : d.scale = 6) : decScaled d 6 = d.num.natAbs := by
  unfold decScaled
  rw [h]
  simp

lemma goParseFloat_fmtF6 (d : Dec) (h6 : d.scale = 6) :
    goParseFloat (fmtF6 d) = some d := by
  have key : parseDecMag (natToDigits (decScaled d 6 / 1000000) ++
      '.' :: digit6 (decScaled d 6 % 1000000)) = some ⟨(d.num.natAbs : Int), 6⟩ := by
    rw [parseDecMag_fmt]
    congr 2
    rw [decScaled_eq d h6]
    omega
  by_cases hneg : d.num < 0
  · have hf : fmtF6 d = '-' :: (natToDigits (decScaled d 6 / 1000000) ++
        '.' :: digit6 (decScaled d 6 % 1000000)) := by
      unfold fmtF6
      rw [if_pos hneg, List.singleton_append]
    rw [hf]
    unfold goParseFloat
    dsimp only
    rw [if_neg (show ('-' : Char) ≠ '+' by decide), if_pos rfl, key]
    show some (⟨-(d.num.natAbs : Int), 6⟩ : Dec) = some d
    obtain ⟨dn, ds⟩ := d
    dsimp only at h6 hneg ⊢
    subst h6
    congr 2
    omega
  · have hf : fmtF6 d = natToDigits (decScaled d 6 / 1000000) ++
        '.' :: digit6 (decScaled d 6 % 1000000) := by
      unfold fmtF6
      rw [if_neg hneg, List.nil_append]
    rw [hf]
    cases hI : natToDigits (decScaled d 6 / 1000000) with
    | nil => exact absurd hI (natToDigits_ne_nil _)
    | cons c cs =>
      have hc : c.isDigit = true := natToDigits_digits _ c (hI ▸ List.mem_cons_self c cs)
      obtain ⟨-, -, -, -, -, hplus, hminus⟩ := digit_not_special hc
      rw [List.cons_append]
      unfold goParseFloat
      dsimp only
      rw [if_neg hplus, if_neg hminus, ← List.cons_append, ← hI, key]
      obtain ⟨dn, ds⟩ := d
      dsimp only at h6 hneg ⊢
      subst h6
      congr 2
      omega

lemma parseDecMag_fmt1 (m : Nat) :
    parseDecMag (natToDigits (m / 10) ++ '.' :: [digitChar (m % 10)]) =
      some ⟨((m / 10 : Nat) : Int) * 10 ^ 1 + ((m % 10 : Nat) : Int), 1⟩ := by
  have hdot : '.' ∉ natToDigits (m / 10) := fun hm =>
    absurd (natToDigits_digits _ '.' hm) (by decide)
  unfold parseDecMag
  rw [splitFirst_append '.' _ _ hdot]
  dsimp only
  cases hI : natToDigits (m / 10) with
  | nil => exact absurd hI (natToDigits_ne_nil _)
  | cons c cs =>
    dsimp only
    rw [← hI, parseNatDigits_natToDigits]
    have hone : parseNatDigits [digitChar (m % 10)] = some (m % 10) := by
      show parseNatGo 0 [digitChar (m % 10)] = some (m % 10)
      simp only [parseNatGo, digitVal_digitChar (Nat.mod_lt m (by norm_num))]
      congr 1
      omega
    rw [hone]
    simp

lemma decScaled_eq1 (d : Dec) (h : d.scale = 1) : decScaled d 1 = d.num.natAbs := by
  unfold decScaled
  rw [h]
  simp

lemma goParseFloat_fmtF1 (d : Dec) (h1 : d.scale = 1) :
    goParseFloat (fmtF1 d) = some d := by
  have key : parseDecMag (natToDigits (decScaled d 1 / 10) ++
      '.' :: [digitChar (decScaled d 1 % 10)]) = some ⟨(d.num.natAbs : Int), 1⟩ := by
    rw [parseDecMag_fmt1]
    congr 2
    rw [decScaled_eq1 d h1]
    omega
  by_cases hneg : d.num < 0
  · have hf : fmtF1 d = '-' :: (natToDigits (decScaled d 1 / 10) ++
        '.' :: [digitChar (decScaled d 1 % 10)]) := by
      unfold fmtF1
      rw [if_pos hneg, List.singleton_append]
    rw [hf]
    unfold goParseFloat
    dsimp only
    rw [if_neg (show ('-' : Char) ≠ '+' by decide), if_pos rfl, key]
    show some (⟨-(d.num.natAbs : Int), 1⟩ : Dec) = some d
    obtain ⟨dn, ds⟩ := d
    dsimp only at h1 hneg ⊢
    subst h1
    congr 2
    omega
  · have hf : fmtF1 d = natToDigits (decScaled d 1 / 10) ++
        '.' :: [digitChar (decScaled d 1 % 10)] := by
      unfold fmtF1
      rw [if_neg hneg, List.nil_append]
    rw [hf]
    cases hI : natToDigits (decScaled d 1 / 10) with
    | nil => exact absurd hI (natToDigits_ne_nil _)
    | cons c cs =>
      have hc : c.isDigit = true := natToDigits_digits _ c (hI ▸ List.mem_cons_self c cs)
      obtain ⟨-, -, -, -, -, hplus, hminus⟩ := digit_not_special hc
      rw [List.cons_append]
      unfold goParseFloat
      dsimp only
      rw [if_neg hplus, if_neg hminus, ← List.cons_append, ← hI, key]
      obtain ⟨dn, ds⟩ := d
      dsimp only at h1 hneg ⊢
      subst h1
      congr 2
      omega

lemma fmtInt_no_comma (i : Int) : ',' ∉ fmtInt i :=
  (numeric_wire_ok (fmtInt_chars i)).2.2.1

lemma parseCellInfo_round (ci : CellInfo) (hn : ci.networkType = [])
    (hnb : ci.neighbors = []) :
    parseCellInfo (cellPayload ci) = some ci := by
  have hsplit : splitOnChar ',' (cellPayload ci) =
      [fmtInt ci.mcc, fmtInt ci.mnc, fmtInt ci.cid, fmtInt ci.lac, fmtInt ci.rssi] := by
    unfold cellPayload
    rw [splitOnChar_append ',' _ _ (fmtInt_no_comma _),
      splitOnChar_append ',' _ _ (fmtInt_no_comma _),
      splitOnChar_append ',' _ _ (fmtInt_no_comma _),
      splitOnChar_append ',' _ _ (fmtInt_no_comma _),
      splitOnChar_single (fmtInt_no_comma _)]
  unfold parseCellInfo
  rw [hsplit]
  dsimp only
  rw [if_neg (by simp)]
  rw [goAtoi_fmtInt, goAtoi_fmtInt, goAtoi_fmtInt, goAtoi_fmtInt, goAtoi_fmtInt]
  obtain ⟨mcc, mnc, cid, lac, rssi, nt, nb⟩ := ci
  dsimp only at hn hnb ⊢
  subst hn
  subst hnb
  rfl

/-! ## Stepping the parse loop over built parts -/

lemma processPart_uid (hb : SmsHeartbeat) (v : Str)
    (hv : trimSpace v = v) (hp : uuidParse v = some v) :
    processPart hb ("uid=".data ++ v) = .ok { hb with userId := v } := by
  unfold processPart
  rw [show ("uid=".data ++ v : Str) = "uid".data ++ '=' :: v from rfl,
    splitFirst_append '=' _ _ (by decide)]
  dsimp only
  rw [show trimSpace "uid".data = "uid".data from by decide, hv,
    if_pos rfl, hp]

lemma processPart_ts (hb : SmsHeartbeat) (t : Str)
    (hv : trimSpace t = t) (hp : tsParse t = some t) :
    processPart hb ("ts=".data ++ t) = .ok { hb with timestamp := some t } := by
  unfold processPart
  rw [show ("ts=".data ++ t : Str) = "ts".data ++ '=' :: t from rfl,
    splitFirst_append '=' _ _ (by decide)]
  dsimp only
  rw [show trimSpace "ts".data = "ts".data from by decide, hv,
    if_neg (by decide), if_pos rfl, hp]

lemma processPart_lat (hb : SmsHeartbeat) (v : Str) (d : Dec)
    (hv : trimSpace v = v) (hp : goParseFloat v = some d) :
    processPart hb ("lat=".data ++ v) = .ok { hb with lat := d } := by
  unfold processPart
  rw [show ("lat=".data ++ v : Str) = "lat".data ++ '=' :: v from rfl,
    splitFirst_append '=' _ _ (by decide)]
  dsimp only
  rw [show trimSpace "lat".data = "lat".data from by decide, hv,
    if_neg (by decide), if_neg (by decide), if_pos rfl, hp]

lemma processPart_lng (hb : SmsHeartbeat) (v : Str) (d : Dec)
    (hv : trimSpace v = v) (hp : goParseFloat v = some d) :
    processPart hb ("lng=".data ++ v) = .ok { hb with lng := d } := by
  unfold processPart
  rw [show ("lng=".data ++ v : Str) = "lng".data ++ '=' :: v from rfl,
    splitFirst_append '=' _ _ (by decide)]
  dsimp only
  rw [show trimSpace "lng".data = "lng".data from by decide, hv,
    if_neg (by decide), if_neg (by decide), if_neg (by decide), if_pos rfl, hp]

lemma processPart_acc (hb : SmsHeartbeat) (v : Str) (a : Int)
    (hv : trimSpace v = v) (hp : goAtoi v = some a) :
    processPart hb ("acc=".data ++ v) = .ok { hb with accuracyM := a } := by
  unfold processPart
  rw [show ("acc=".data ++ v : Str) = "acc".data ++ '=' :: v from rfl,
    splitFirst_append '=' _ _ (by decide)]
  dsimp only
  rw [show trimSpace "acc".data = "acc".data from by decide, hv,
    if_neg (by decide), if_neg (by decide), if_neg (by decide), if_neg (by decide),
    if_pos rfl, hp]

lemma processPart_cell (hb : SmsHeartbeat) (v : Str) (ci : CellInfo)
    (hv : trimSpace v = v) (hp : parseCellInfo v = some ci) :
    processPart hb ("cell=".data ++ v) = .ok { hb with cellInfo := ci } := by
  unfold processPart
  rw [show ("cell=".data ++ v : Str) = "cell".data ++ '=' :: v from rfl,
    splitFirst_append '=' _ _ (by decide)]
  dsimp only
  rw [show trimSpace "cell".data = "cell".data from by decide, hv,
    if_neg (by decide), if_neg (by decide), if_neg (by decide), if_neg (by decide),
    if_neg (by decide), if_pos rfl, hp]

lemma processPart_bat (hb : SmsHeartbeat) (v : Str) (b : Int)
    (hv : trimSpace v = v) (hp : goAtoi v = some b) :
    processPart hb ("bat=".data ++ v) = .ok { hb with batteryPct := some b } := by
  unfold processPart
  rw [show ("bat=".data ++ v : Str) = "bat".data ++ '=' :: v from rfl,
    splitFirst_append '=' _ _ (by decide)]
  dsimp only
  rw [show trimSpace "bat".data = "bat".data from by decide, hv,
    if_neg (by decide), if_neg (by decide), if_neg (by decide), if_neg (by decide),
    if_neg (by decide), if_neg (by decide), if_pos rfl, hp]

lemma processPart_spd (hb : SmsHeartbeat) (v : Str) (d : Dec)
    (hv : trimSpace v = v) (hp : goParseFloat v = some d) :
    processPart hb ("spd=".data ++ v) = .ok { hb with speed := some d } := by
  unfold processPart
  rw [show ("spd=".data ++ v : Str) = "spd".data ++ '=' :: v from rfl,
    splitFirst_append '=' _ _ (by decide)]
  dsimp only
  rw [show trimSpace "spd".data = "spd".data from by decide, hv,
    if_neg (by decide), if_neg (by decide), if_neg (by decide), if_neg (by decide),
    if_neg (by decide), if_neg (by decide), if_neg (by decide), if_pos rfl, hp]

lemma processPart_lg (hb : SmsHeartbeat) :
    processPart hb "lg=1".data = .ok { hb with lastGasp := true } := by
  unfold processPart
  rw [show ("lg=1".data : Str) = "lg".data ++ '=' :: "1".data from rfl,
    splitFirst_append '=' _ _ (by decide)]
  dsimp only
  rw [show trimSpace "lg".data = "lg".data from by decide,
    show trimSpace "1".data = "1".data from by decide,
    if_neg (by decide), if_neg (by decide), if_neg (by decide), if_neg (by decide),
    if_neg (by decide), if_neg (by decide), if_neg (by decide), if_neg (by decide),
    if_pos rfl]
  rfl

lemma processPart_sig (hb : SmsHeartbeat) (v : Str) (hv : trimSpace v = v) :
    processPart hb ("sig=".data ++ v) = .ok { hb with signature := v } := by
  unfold processPart
  rw [show ("sig=".data ++ v : Str) = "sig".data ++ '=' :: v from rfl,
    splitFirst_append '=' _ _ (by decide)]
  dsimp only
  rw [show trimSpace "sig".data = "sig".data from by decide, hv,
    if_neg (by decide), if_neg (by decide), if_neg (by decide), if_neg (by decide),
    if_neg (by decide), if_neg (by decide), if_neg (by decide), if_neg (by decide),
    if_neg (by decide), if_pos rfl]

lemma processParts_cons_ok {hb hb₁ : SmsHeartbeat} {p : Str} (rest : List Str)
    (h : processPart hb p = .ok hb₁) :
    processParts hb (p :: rest) = processParts hb₁ rest := by
  show (match processPart hb p with
    | Except.error e => Except.error e
    | Except.ok hb₂ => processParts hb₂ rest) = processParts hb₁ rest
  rw [h]

lemma processParts_cons_err {hb : SmsHeartbeat} {p : Str} {e : String} (rest : List Str)
    (h : processPart hb p = .error e) :
    processParts hb (p :: rest) = .error e := by
  show (match processPart hb p with
    | Except.error e => Except.error e
    | Except.ok hb₂ => processParts hb₂ rest) = (Except.error e : Except String SmsHeartbeat)
  rw [h]

lemma processParts_append (hb : SmsHeartbeat) (xs ys : List Str) :
    processParts hb (xs ++ ys) =
      (processParts hb xs).bind (fun hb₁ => processParts hb₁ ys) := by
  induction xs generalizing hb with
  | nil => rfl
  | cons p t ih =>
    show processParts hb (p :: (t ++ ys)) =
      (processParts hb (p :: t)).bind (fun hb₁ => processParts hb₁ ys)
    cases hq : processPart hb p with
    | error e =>
      rw [processParts_cons_err _ hq, processParts_cons_err _ hq]
      rfl
    | ok hb₁ =>
      rw [processParts_cons_ok _ hq, processParts_cons_ok _ hq, ih]

/-- The heartbeats the round-trip claim quantifies over: canonical wire
form. Source is sms; the uuid is canonical lowercase text; the
timestamp is canonical RFC3339 text (and not the zero instant);
coordinates are stored at 6 decimal places and speed at 1 — exactly
the precision `BuildSMSPayload` emits; the cell record carries only
the five emitted numeric fields; and the signature is nonempty,
semicolon-free, whitespace-trimmed text (base64 always is). -/
structure WellFormedSms (h : SmsHeartbeat) : Prop where
  source_sms : h.source = "sms"
  uid_canon : uuidParse h.userId = some h.userId
  uid_nonnil : h.userId ≠ nilUuid
  uid_wire : (';' ∉ h.userId) ∧ trimSpace h.userId = h.userId
  ts_canon : ∃ t, h.timestamp = some t ∧ tsParse t = some t ∧ t ≠ zeroTs ∧
    (';' ∉ t) ∧ trimSpace t = t
  lat_scale : h.lat.scale = 6
  lng_scale : h.lng.scale = 6
  spd_scale : ∀ v, h.speed = some v → v.scale = 1
  cell_plain : h.cellInfo.networkType = [] ∧ h.cellInfo.neighbors = []
  sig_nonempty : h.signature ≠ []
  sig_wire : (';' ∉ h.signature) ∧ trimSpace h.signature = h.signature

/-- A part the parser's key dispatch ignores: either no `=` at all, or
a key outside the fixed key set. -/
def unknownKeyPart (u : Str) : Prop :=
  match splitFirst '=' u with
  | none => True
  | some (k, _) => trimSpace k ∉ (["uid".data, "ts".data, "lat".data, "lng".data,
      "acc".data, "cell".data, "bat".data, "spd".data, "lg".data, "sig".data] : List Str)

lemma processPart_unknown (hb : SmsHeartbeat) (u : Str) (hu : unknownKeyPart u) :
    processPart hb u = .ok hb := by
  unfold unknownKeyPart at hu
  unfold processPart
  cases hsp : splitFirst '=' u with
  | none => rfl
  | some kv =>
    obtain ⟨k, v⟩ := kv
    rw [hsp] at hu
    dsimp only at hu ⊢
    simp only [List.mem_cons, List.not_mem_nil, or_false, not_or] at hu
    obtain ⟨h1, h2, h3, h4, h5, h6, h7, h8, h9, h10⟩ := hu
    rw [if_neg h1, if_neg h2, if_neg h3, if_neg h4, if_neg h5, if_neg h6,
      if_neg h7, if_neg h8, if_neg h9, if_neg h10]

lemma cellPayload_no_semi (ci : CellInfo) : ';' ∉ cellPayload ci := by
  have hfmt : ∀ i : Int, ';' ∉ fmtInt i := fun i => (numeric_wire_ok (fmtInt_chars i)).1
  intro hm
  unfold cellPayload at hm
  simp only [List.mem_append, List.mem_cons] at hm
  rcases hm with hm | hm | hm | hm | hm | hm | hm | hm | hm <;>
    first
    | exact hfmt _ hm
    | exact absurd hm (by decide)

lemma fmtInt_chars' (i : Int) : ∀ c ∈ fmtInt i, c.isDigit = true ∨ c = '-' := by
  intro c hc
  unfold fmtInt at hc
  rcases List.mem_append.mp hc with hc' | hc'
  · by_cases hneg : i < 0
    · rw [if_pos hneg] at hc'
      rcases List.mem_singleton.mp hc' with rfl
      exact Or.inr rfl
    · rw [if_neg hneg] at hc'
      exact absurd hc' (List.not_mem_nil c)
  · exact Or.inl (natToDigits_digits _ c hc')

lemma cellPayload_chars (ci : CellInfo) :
    ∀ c ∈ cellPayload ci, c.isDigit = true ∨ c = '-' ∨ c = ',' := by
  intro c hc
  unfold cellPayload at hc
  simp only [List.mem_append, List.mem_cons] at hc
  rcases hc with hc | rfl | hc | rfl | hc | rfl | hc | rfl | hc <;>
    first
    | exact Or.inr (Or.inr rfl)
    | (rcases fmtInt_chars' _ c hc with hd | rfl
       · exact Or.inl hd
       · exact Or.inr (Or.inl rfl))

lemma cellPayload_trim (ci : CellInfo) :
    trimSpace (cellPayload ci) = cellPayload ci := by
  apply trimSpace_eq_self
  intro c hc
  rcases cellPayload_chars ci c hc with hd | rfl | rfl
  · exact (digit_not_special hd).1
  · decide
  · decide

lemma processParts_buildParts (h : SmsHeartbeat) (fid : String) (now : Int)
    (hwf : WellFormedSms h) :
    processParts { id := fid, source := "sms", createdAt := now } (buildParts h) =
      .ok { h with id := fid, createdAt := now } := by
  have htrim6 : ∀ d : Dec, trimSpace (fmtF6 d) = fmtF6 d :=
    fun d => (numeric_wire_ok (fmtF6_chars d)).2.2.2
  have htrim1 : ∀ d : Dec, trimSpace (fmtF1 d) = fmtF1 d :=
    fun d => (numeric_wire_ok (fmtF1_chars d)).2.2.2
  have htrimI : ∀ i : Int, trimSpace (fmtInt i) = fmtInt i :=
    fun i => (numeric_wire_ok (fmtInt_chars i)).2.2.2
  obtain ⟨hsrc_eq, huidc, huidn, ⟨huw1, huw2⟩, hts_ex, hlat6, hlng6, hspd1,
    ⟨hc1, hc2⟩, hsign, ⟨hsw1, hsw2⟩⟩ := hwf
  obtain ⟨t, ht, htp, htz, hts, htt⟩ := hts_ex
  obtain ⟨hid, huid, hsrc, hlat, hlng, hacc, hci, hbat, hspd, hlg, hts0, hsig, hca⟩ := h
  dsimp only at hsrc_eq huidc huidn huw1 huw2 ht hlat6 hlng6 hspd1 hc1 hc2 hsign hsw1 hsw2
  subst hsrc_eq
  subst ht
  obtain ⟨cm, cn, cc, cl, cr, cnt, cnb⟩ := hci
  dsimp only at hc1 hc2
  subst hc1
  subst hc2
  cases hbat with
  | none =>
    cases hspd with
    | none =>
      cases hlg with
      | false =>
        show processParts { id := fid, source := "sms", createdAt := now }
            (("uid=".data ++ huid) ::
             ("ts=".data ++ t) ::
             ("lat=".data ++ fmtF6 hlat) ::
             ("lng=".data ++ fmtF6 hlng) ::
             ("acc=".data ++ fmtInt hacc) ::
             ("cell=".data ++ cellPayload ⟨cm, cn, cc, cl, cr, [], []⟩) ::
             ("sig=".data ++ hsig) :: []) = _
        rw [processParts_cons_ok _ (processPart_uid _ _ huw2 huidc),
          processParts_cons_ok _ (processPart_ts _ _ htt htp),
          processParts_cons_ok _ (processPart_lat _ _ _ (htrim6 _) (goParseFloat_fmtF6 _ hlat6)),
          processParts_cons_ok _ (processPart_lng _ _ _ (htrim6 _) (goParseFloat_fmtF6 _ hlng6)),
          processParts_cons_ok _ (processPart_acc _ _ _ (htrimI _) (goAtoi_fmtInt _)),
          processParts_cons_ok _ (processPart_cell _ _ _ (cellPayload_trim _) (parseCellInfo_round _ rfl rfl)),
          processParts_cons_ok _ (processPart_sig _ _ hsw2)]
        rfl
      | true =>
        show processParts { id := fid, source := "sms", createdAt := now }
            (("uid=".data ++ huid) ::
             ("ts=".data ++ t) ::
             ("lat=".data ++ fmtF6 hlat) ::
             ("lng=".data ++ fmtF6 hlng) ::
             ("acc=".data ++ fmtInt hacc) ::
             ("cell=".data ++ cellPayload ⟨cm, cn, cc, cl, cr, [], []⟩) ::
             "lg=1".data ::
             ("sig=".data ++ hsig) :: []) = _
        rw [processParts_cons_ok _ (processPart_uid _ _ huw2 huidc),
          processParts_cons_ok _ (processPart_ts _ _ htt htp),
          processParts_cons_ok _ (processPart_lat _ _ _ (htrim6 _) (goParseFloat_fmtF6 _ hlat6)),
          processParts_cons_ok _ (processPart_lng _ _ _ (htrim6 _) (goParseFloat_fmtF6 _ hlng6)),
          processParts_cons_ok _ (processPart_acc _ _ _ (htrimI _) (goAtoi_fmtInt _)),
          processParts_cons_ok _ (processPart_cell _ _ _ (cellPayload_trim _) (parseCellInfo_round _ rfl rfl)),
          processParts_cons_ok _ (processPart_lg _),
          processParts_cons_ok _ (processPart_sig _ _ hsw2)]
        rfl
    | some v =>
      have hv1 : v.scale = 1 := hspd1 v rfl
      cases hlg with
      | false =>
        show processParts { id := fid, source := "sms", createdAt := now }
            (("uid=".data ++ huid) ::
             ("ts=".data ++ t) ::
             ("lat=".data ++ fmtF6 hlat) ::
             ("lng=".data ++ fmtF6 hlng) ::
             ("acc=".data ++ fmtInt hacc) ::
             ("cell=".data ++ cellPayload ⟨cm, cn, cc, cl, cr, [], []⟩) ::
             ("spd=".data ++ fmtF1 v) ::
             ("sig=".data ++ hsig) :: []) = _
        rw [processParts_cons_ok _ (processPart_uid _ _ huw2 huidc),
          processParts_cons_ok _ (processPart_ts _ _ htt htp),
          processParts_cons_ok _ (processPart_lat _ _ _ (htrim6 _) (goParseFloat_fmtF6 _ hlat6)),
          processParts_cons_ok _ (processPart_lng _ _ _ (htrim6 _) (goParseFloat_fmtF6 _ hlng6)),
          processParts_cons_ok _ (processPart_acc _ _ _ (htrimI _) (goAtoi_fmtInt _)),
          processParts_cons_ok _ (processPart_cell _ _ _ (cellPayload_trim _) (parseCellInfo_round _ rfl rfl)),
          processParts_cons_ok _ (processPart_spd _ _ _ (htrim1 _) (goParseFloat_fmtF1 _ hv1)),
          processParts_cons_ok _ (processPart_sig _ _ hsw2)]
        rfl
      | true =>
        show processParts { id := fid, source := "sms", createdAt := now }
            (("uid=".data ++ huid) ::
             ("ts=".data ++ t) ::
             ("lat=".data ++ fmtF6 hlat) ::
             ("lng=".data ++ fmtF6 hlng) ::
             ("acc=".data ++ fmtInt hacc) ::
             ("cell=".data ++ cellPayload ⟨cm, cn, cc, cl, cr, [], []⟩) ::
             ("spd=".data ++ fmtF1 v) ::
             "lg=1".data ::
             ("sig=".data ++ hsig) :: []) = _
        rw [processParts_cons_ok _ (processPart_uid _ _ huw2 huidc),
          processParts_cons_ok _ (processPart_ts _ _ htt htp),
          processParts_cons_ok _ (processPart_lat _ _ _ (htrim6 _) (goParseFloat_fmtF6 _ hlat6)),
          processParts_cons_ok _ (processPart_lng _ _ _ (htrim6 _) (goParseFloat_fmtF6 _ hlng6)),
          processParts_cons_ok _ (processPart_acc _ _ _ (htrimI _) (goAtoi_fmtInt _)),
          processParts_cons_ok _ (processPart_cell _ _ _ (cellPayload_trim _) (parseCellInfo_round _ rfl rfl)),
          processParts_cons_ok _ (processPart_spd _ _ _ (htrim1 _) (goParseFloat_fmtF1 _ hv1)),
          processParts_cons_ok _ (processPart_lg _),
          processParts_cons_ok _ (processPart_sig _ _ hsw2)]
        rfl
  | some b =>
    cases hspd with
    | none =>
      cases hlg with
      | false =>
        show processParts { id := fid, source := "sms", createdAt := now }
            (("uid=".data ++ huid) ::
             ("ts=".data ++ t) ::
             ("lat=".data ++ fmtF6 hlat) ::
             ("lng=".data ++ fmtF6 hlng) ::
             ("acc=".data ++ fmtInt hacc) ::
             ("cell=".data ++ cellPayload ⟨cm, cn, cc, cl, cr, [], []⟩) ::
             ("bat=".data ++ fmtInt b) ::
             ("sig=".data ++ hsig) :: []) = _
        rw [processParts_cons_ok _ (processPart_uid _ _ huw2 huidc),
          processParts_cons_ok _ (processPart_ts _ _ htt htp),
          processParts_cons_ok _ (processPart_lat _ _ _ (htrim6 _) (goParseFloat_fmtF6 _ hlat6)),
          processParts_cons_ok _ (processPart_lng _ _ _ (htrim6 _) (goParseFloat_fmtF6 _ hlng6)),
          processParts_cons_ok _ (processPart_acc _ _ _ (htrimI _) (goAtoi_fmtInt _)),
          processParts_cons_ok _ (processPart_cell _ _ _ (cellPayload_trim _) (parseCellInfo_round _ rfl rfl)),
          processParts_cons_ok _ (processPart_bat _ _ _ (htrimI _) (goAtoi_fmtInt _)),
          processParts_cons_ok _ (processPart_sig _ _ hsw2)]
        rfl
      | true =>
        show processParts { id := fid, source := "sms", createdAt := now }
            (("uid=".data ++ huid) ::
             ("ts=".data ++ t) ::
             ("lat=".data ++ fmtF6 hlat) ::
             ("lng=".data ++ fmtF6 hlng) ::
             ("acc=".data ++ fmtInt hacc) ::
             ("cell=".data ++ cellPayload ⟨cm, cn, cc, cl, cr, [], []⟩) ::
             ("bat=".data ++ fmtInt b) ::
             "lg=1".data ::
             ("sig=".data ++ hsig) :: []) = _
        rw [processParts_cons_ok _ (processPart_uid _ _ huw2 huidc),
          processParts_cons_ok _ (processPart_ts _ _ htt htp),
          processParts_cons_ok _ (processPart_lat _ _ _ (htrim6 _) (goParseFloat_fmtF6 _ hlat6)),
          processParts_cons_ok _ (processPart_lng _ _ _ (htrim6 _) (goParseFloat_fmtF6 _ hlng6)),
          processParts_cons_ok _ (processPart_acc _ _ _ (htrimI _) (goAtoi_fmtInt _)),
          processParts_cons_ok _ (processPart_cell _ _ _ (cellPayload_trim _) (parseCellInfo_round _ rfl rfl)),
          processParts_cons_ok _ (processPart_bat _ _ _ (htrimI _) (goAtoi_fmtInt _)),
          processParts_cons_ok _ (processPart_lg _),
          processParts_cons_ok _ (processPart_sig _ _ hsw2)]
        rfl
    | some v =>
      have hv1 : v.scale = 1 := hspd1 v rfl
      cases hlg with
      | false =>
        show processParts { id := fid, source := "sms", createdAt := now }
            (("uid=".data ++ huid) ::
             ("ts=".data ++ t) ::
             ("lat=".data ++ fmtF6 hlat) ::
             ("lng=".data ++ fmtF6 hlng) ::
             ("acc=".data ++ fmtInt hacc) ::
             ("cell=".data ++ cellPayload ⟨cm, cn, cc, cl, cr, [], []⟩) ::
             ("bat=".data ++ fmtInt b) ::
             ("spd=".data ++ fmtF1 v) ::
             ("sig=".data ++ hsig) :: []) = _
        rw [processParts_cons_ok _ (processPart_uid _ _ huw2 huidc),
          processParts_cons_ok _ (processPart_ts _ _ htt htp),
          processParts_cons_ok _ (processPart_lat _ _ _ (htrim6 _) (goParseFloat_fmtF6 _ hlat6)),
          processParts_cons_ok _ (processPart_lng _ _ _ (htrim6 _) (goParseFloat_fmtF6 _ hlng6)),
          processParts_cons_ok _ (processPart_acc _ _ _ (htrimI _) (goAtoi_fmtInt _)),
          processParts_cons_ok _ (processPart_cell _ _ _ (cellPayload_trim _) (parseCellInfo_round _ rfl rfl)),
          processParts_cons_ok _ (processPart_bat _ _ _ (htrimI _) (goAtoi_fmtInt _)),
          processParts_cons_ok _ (processPart_spd _ _ _ (htrim1 _) (goParseFloat_fmtF1 _ hv1)),
          processParts_cons_ok _ (processPart_sig _ _ hsw2)]
        rfl
      | true =>
        show processParts { id := fid, source := "sms", createdAt := now }
            (("uid=".data ++ huid) ::
             ("ts=".data ++ t) ::
             ("lat=".data ++ fmtF6 hlat) ::
             ("lng=".data ++ fmtF6 hlng) ::
             ("acc=".data ++ fmtInt hacc) ::
             ("cell=".data ++ cellPayload ⟨cm, cn, cc, cl, cr, [], []⟩) ::
             ("bat=".data ++ fmtInt b) ::
             ("spd=".data ++ fmtF1 v) ::
             "lg=1".data ::
             ("sig=".data ++ hsig) :: []) = _
        rw [processParts_cons_ok _ (processPart_uid _ _ huw2 huidc),
          processParts_cons_ok _ (processPart_ts _ _ htt htp),
          processParts_cons_ok _ (processPart_lat _ _ _ (htrim6 _) (goParseFloat_fmtF6 _ hlat6)),
          processParts_cons_ok _ (processPart_lng _ _ _ (htrim6 _) (goParseFloat_fmtF6 _ hlng6)),
          processParts_cons_ok _ (processPart_acc _ _ _ (htrimI _) (goAtoi_fmtInt _)),
          processParts_cons_ok _ (processPart_cell _ _ _ (cellPayload_trim _) (parseCellInfo_round _ rfl rfl)),
          processParts_cons_ok _ (processPart_bat _ _ _ (htrimI _) (goAtoi_fmtInt _)),
          processParts_cons_ok _ (processPart_spd _ _ _ (htrim1 _) (goParseFloat_fmtF1 _ hv1)),
          processParts_cons_ok _ (processPart_lg _),
          processParts_cons_ok _ (processPart_sig _ _ hsw2)]
        rfl

lemma no_semi_append {a b : Str} (ha : ';' ∉ a) (hb : ';' ∉ b) : ';' ∉ a ++ b := by
  intro hm
  rcases List.mem_append.mp hm with hm' | hm'
  exacts [ha hm', hb hm']

lemma buildParts_no_semi (h : SmsHeartbeat) (hwf : WellFormedSms h) :
    ∀ p ∈ buildParts h, ';' ∉ p := by
  obtain ⟨t, ht, htp, htz, hts, htt⟩ := hwf.ts_canon
  have hfmtI : ∀ i : Int, ';' ∉ fmtInt i := fun i => (numeric_wire_ok (fmtInt_chars i)).1
  have hf6 : ∀ d : Dec, ';' ∉ fmtF6 d := fun d => (numeric_wire_ok (fmtF6_chars d)).1
  have hf1 : ∀ d : Dec, ';' ∉ fmtF1 d := fun d => (numeric_wire_ok (fmtF1_chars d)).1
  intro p hp
  unfold buildParts at hp
  rw [ht] at hp
  dsimp only [Option.getD] at hp
  rcases List.mem_append.mp hp with hp | hpSig
  · rcases List.mem_append.mp hp with hp | hpLg
    · rcases List.mem_append.mp hp with hp | hpSpd
      · rcases List.mem_append.mp hp with hpBase | hpBat
        · simp only [List.mem_cons, List.not_mem_nil, or_false] at hpBase
          rcases hpBase with rfl | rfl | rfl | rfl | rfl | rfl
          · exact no_semi_append (by decide) hwf.uid_wire.1
          · exact no_semi_append (by decide) hts
          · exact no_semi_append (by decide) (hf6 _)
          · exact no_semi_append (by decide) (hf6 _)
          · exact no_semi_append (by decide) (hfmtI _)
          · exact no_semi_append (by decide) (cellPayload_no_semi _)
        · cases hb : h.batteryPct with
          | none =>
            rw [hb] at hpBat
            exact absurd hpBat (List.not_mem_nil p)
          | some b =>
            rw [hb] at hpBat
            rcases List.mem_singleton.mp hpBat with rfl
            exact no_semi_append (by decide) (hfmtI _)
      · cases hs : h.speed with
        | none =>
          rw [hs] at hpSpd
          exact absurd hpSpd (List.not_mem_nil p)
        | some v =>
          rw [hs] at hpSpd
          rcases List.mem_singleton.mp hpSpd with rfl
          exact no_semi_append (by decide) (hf1 _)
    · by_cases hl : h.lastGasp
      · rw [if_pos hl] at hpLg
        rcases List.mem_singleton.mp hpLg with rfl
        decide
      · rw [if_neg hl] at hpLg
        exact absurd hpLg (List.not_mem_nil p)
  · rcases List.mem_singleton.mp hpSig with rfl
    exact no_semi_append (by decide) hwf.sig_wire.1

lemma buildParts_length (h : SmsHeartbeat) : 6 ≤ (buildParts h).length := by
  unfold buildParts
  cases h.batteryPct <;> cases h.speed <;> cases h.lastGasp <;> simp

lemma buildParts_ne_nil (h : SmsHeartbeat) : buildParts h ≠ [] := by
  intro hc
  have := buildParts_length h
  rw [hc] at this
  simp at this

lemma ParseHeartbeatSMS_of_parts (fid : String) (now : Int) (body : Str)
    (h : SmsHeartbeat) (hwf : WellFormedSms h) (parts : List Str)
    (hsplit : splitOnChar ';' body = parts)
    (hlen : ¬ parts.length < 6)
    (hproc : processParts { id := fid, source := "sms", createdAt := now } parts =
      .ok { h with id := fid, createdAt := now }) :
    ParseHeartbeatSMS fid now body = .ok { h with id := fid, createdAt := now } := by
  obtain ⟨t, ht, htp, htz, hts, htt⟩ := hwf.ts_canon
  unfold ParseHeartbeatSMS
  dsimp only
  rw [hsplit, if_neg hlen, hproc]
  dsimp only
  rw [if_neg (show ¬ h.userId = nilUuid from hwf.uid_nonnil),
    if_neg (show ¬ (h.timestamp = none ∨ h.timestamp = some zeroTs) from ?_),
    if_neg (show ¬ h.signature = [] from hwf.sig_nonempty)]
  rintro (hc | hc) <;> rw [ht] at hc
  · exact Option.noConfusion hc
  · exact htz (Option.some.inj hc)

lemma processParts_skip_unknown (hb : SmsHeartbeat) (l₁ l₂ : List Str) (u : Str)
    (hu : unknownKeyPart u) :
    processParts hb (l₁ ++ u :: l₂) = processParts hb (l₁ ++ l₂) := by
  rw [processParts_append, processParts_append]
  cases hq : processParts hb l₁ with
  | error e => rfl
  | ok hb₁ =>
    show processParts hb₁ (u :: l₂) = processParts hb₁ l₂
    rw [processParts_cons_ok _ (processPart_unknown hb₁ u hu)]

def hbC7 : SmsHeartbeat :=
  { id := "hb-0", source := "http",
    userId := "550e8400-e29b-41d4-a716-446655440000".data,
    lat := ⟨6524400, 6⟩, lng := ⟨3379200, 6⟩, accuracyM := 200,
    cellInfo := { mcc := 621, mnc := 20, cid := 12345, lac := 678, rssi := -85 },
    timestamp := some "2025-11-19T12:50:00Z".data,
    signature := "abc".data, createdAt := 5 }

set_option maxRecDepth 40000 in
/-- C7 counterexample: `ParseHeartbeatSMS` always stamps the heartbeat
with `source = "sms"`, a fresh id and a fresh `created_at`, so
`Parse(Emit(h))` is **not** `h` field for field: for this heartbeat
ingested over HTTP, the re-parsed copy differs in `source` (and in the
regenerated id / creation time). -/
theorem c7_counterexample :
    (ParseHeartbeatSMS "hb-1" 9 (BuildSMSPayload hbC7)).toOption.map SmsHeartbeat.source =
      some "sms" ∧
    hbC7.source = "http" ∧
    (ParseHeartbeatSMS "hb-1" 9 (BuildSMSPayload hbC7)).toOption ≠ some hbC7 := by
  refine ⟨by decide, rfl, by decide⟩

/-- C7 (amended): for every heartbeat in canonical wire form
(`WellFormedSms`), parsing the emitted payload reproduces every
wire-carried field — user id, timestamp, coordinates, accuracy, cell
info, battery, speed, LastGasp flag and signature — while the id and
`created_at` are regenerated and `source` is stamped `sms`; and
inserting any unknown-key part anywhere between emit and parse leaves
the result unchanged. -/
theorem c7_roundtrip :
    (∀ (h : SmsHeartbeat) (fid : String) (now : Int), WellFormedSms h →
      ParseHeartbeatSMS fid now (BuildSMSPayload h) =
        .ok { h with id := fid, createdAt := now }) ∧
    (∀ (h : SmsHeartbeat) (fid : String) (now : Int) (l₁ l₂ : List Str) (u : Str),
      WellFormedSms h → buildParts h = l₁ ++ l₂ → unknownKeyPart u → (';' ∉ u) →
      ParseHeartbeatSMS fid now (joinSemis (l₁ ++ u :: l₂)) =
        .ok { h with id := fid, createdAt := now }) := by
  constructor
  · intro h fid now hwf
    refine ParseHeartbeatSMS_of_parts fid now _ h hwf (buildParts h) ?_ ?_ ?_
    · exact joinSemis_split _ (buildParts_ne_nil h) (buildParts_no_semi h hwf)
    · have := buildParts_length h
      omega
    · exact processParts_buildParts h fid now hwf
  · intro h fid now l₁ l₂ u hwf hparts hu husemi
    refine ParseHeartbeatSMS_of_parts fid now _ h hwf (l₁ ++ u :: l₂) ?_ ?_ ?_
    · refine joinSemis_split _ (by simp) ?_
      intro p hp
      rcases List.mem_append.mp hp with hp | hp
      · exact buildParts_no_semi h hwf p (hparts ▸ List.mem_append.mpr (Or.inl hp))
      · rcases List.mem_cons.mp hp with rfl | hp'
        · exact husemi
        · exact buildParts_no_semi h hwf p (hparts ▸ List.mem_append.mpr (Or.inr hp'))
    · have h1 : (buildParts h).length = l₁.length + l₂.length := by
        rw [hparts, List.length_append]
      have h2 := buildParts_length h
      simp only [List.length_append, List.length_cons]
      omega
    · rw [processParts_skip_unknown _ _ _ _ hu, ← hparts]
      exact processParts_buildParts h fid now hwf

def hbC7W : SmsHeartbeat :=
  { hbC7 with
    source := "sms"
    batteryPct := some 76
    speed := some (Dec.mk 121 1)
    lastGasp := true }

set_option maxRecDepth 40000 in
/-- C7 witness: the round trip on a concrete well-formed heartbeat
carrying every optional field. -/
theorem c7_witness :
    ParseHeartbeatSMS "hb-1" 9 (BuildSMSPayload hbC7W) =
      .ok { hbC7W with id := "hb-1", createdAt := 9 } :=
  c7_roundtrip.1 hbC7W "hb-1" 9
    ⟨rfl, by decide, by decide, ⟨by decide, by decide⟩,
     ⟨"2025-11-19T12:50:00Z".data, rfl, by decide, by decide, by decide, by decide⟩,
     rfl, rfl, (fun v hv => by injection hv with h'; subst h'; rfl), ⟨rfl, rfl⟩,
     by decide, ⟨by decide, by decide⟩⟩
